import Mathlib

/-!
Shallow embedding of the vector-extraction geometry core
(`services/vector-extractor/src/geometry.py` and
`services/vector-extractor/src/extractor.py`) over exact real arithmetic,
together with theorems settling the specification claims.

Python floats are modelled as real numbers; `math.sqrt` is `Real.sqrt`,
`math.atan2` is the standard case-split on `Real.arctan`, and float
literals such as `0.05`, `1e-10`, `2.5` denote the corresponding rationals.
Boolean conditions on floats become propositions decided classically.
-/

namespace Stratos

noncomputable section

open scoped Classical

/-- Point = tuple[float, float]. -/
abbrev Point : Type := ℝ × ℝ

/-- Line = tuple[Point, Point]. -/
abbrev Line : Type := Point × Point

/-- A line segment with width, as used in extractor.py:
`(start, end, width)`; `s.1` is the start, `s.2.1` the end, `s.2.2` the width. -/
abbrev Seg : Type := Point × Point × ℝ

/-- geometry.distance: `math.sqrt((p2[0]-p1[0])**2 + (p2[1]-p1[1])**2)`. -/
def distance (p1 p2 : Point) : ℝ :=
  Real.sqrt ((p2.1 - p1.1) ^ 2 + (p2.2 - p1.2) ^ 2)

/-- geometry.midpoint: `((p1[0]+p2[0])/2, (p1[1]+p2[1])/2)`. -/
def midpoint (p1 p2 : Point) : Point :=
  ((p1.1 + p2.1) / 2, (p1.2 + p2.2) / 2)

/-- math.atan2 on exact reals (the IEEE signed-zero cases collapse:
atan2(0, 0) = 0, and a zero y argument is the single real 0). -/
def atan2 (y x : ℝ) : ℝ :=
  if 0 < x then Real.arctan (y / x)
  else if x < 0 ∧ 0 ≤ y then Real.arctan (y / x) + Real.pi
  else if x < 0 ∧ y < 0 then Real.arctan (y / x) - Real.pi
  else if 0 < y then Real.pi / 2
  else if y < 0 then -(Real.pi / 2)
  else 0

/-- geometry.line_angle: `angle = atan2(p2[1]-p1[1], p2[0]-p1[0])`,
then `if angle < 0: angle += pi`. -/
def line_angle (line : Line) : ℝ :=
  if atan2 (line.2.2 - line.1.2) (line.2.1 - line.1.1) < 0 then
    atan2 (line.2.2 - line.1.2) (line.2.1 - line.1.1) + Real.pi
  else
    atan2 (line.2.2 - line.1.2) (line.2.1 - line.1.1)

/-- The numerator `abs((y2-y1)*px - (x2-x1)*py + x2*y1 - y2*x1)` of the
perpendicular-distance formula inside geometry.lines_collinear. -/
def cross_num (point : Point) (line : Line) : ℝ :=
  |(line.2.2 - line.1.2) * point.1 - (line.2.1 - line.1.1) * point.2 +
    line.2.1 * line.1.2 - line.2.2 * line.1.1|

/-- The nested `point_to_line_distance` of geometry.lines_collinear:
`line_len = distance(line[0], line[1]); if line_len == 0: return
distance(point, line[0]); return numerator / line_len`. -/
def point_to_line_distance (point : Point) (line : Line) : ℝ :=
  if distance line.1 line.2 = 0 then distance point line.1
  else cross_num point line / distance line.1 line.2

/-- The wrapped undirected-angle difference computed by
geometry.lines_collinear: `angle_diff = abs(angle1 - angle2)`, then
`if angle_diff > pi/2: angle_diff = pi - angle_diff`. -/
def angle_diff_wrapped (line1 line2 : Line) : ℝ :=
  if Real.pi / 2 < |line_angle line1 - line_angle line2| then
    Real.pi - |line_angle line1 - line_angle line2|
  else
    |line_angle line1 - line_angle line2|

/-- geometry.lines_collinear (the Python default `angle_tolerance=0.05` is
passed explicitly at call sites): returns False early when the wrapped
angle difference exceeds the tolerance, else requires both endpoints of
`line2` to be within 3.0 of the infinite line through `line1`. -/
def lines_collinear (line1 line2 : Line) (angle_tolerance : ℝ) : Prop :=
  if angle_tolerance < angle_diff_wrapped line1 line2 then False
  else
    point_to_line_distance line2.1 line1 < 3 ∧
    point_to_line_distance line2.2 line1 < 3

/-- Denominator `(x1-x2)*(y3-y4) - (y1-y2)*(x3-x4)` of
geometry.line_intersection. -/
def inter_denom (line1 line2 : Line) : ℝ :=
  (line1.1.1 - line1.2.1) * (line2.1.2 - line2.2.2) -
    (line1.1.2 - line1.2.2) * (line2.1.1 - line2.2.1)

/-- Parameter `t = ((x1-x3)*(y3-y4) - (y1-y3)*(x3-x4)) / denom` of
geometry.line_intersection. -/
def inter_t (line1 line2 : Line) : ℝ :=
  ((line1.1.1 - line2.1.1) * (line2.1.2 - line2.2.2) -
    (line1.1.2 - line2.1.2) * (line2.1.1 - line2.2.1)) / inter_denom line1 line2

/-- Parameter `u = -((x1-x2)*(y1-y3) - (y1-y2)*(x1-x3)) / denom` of
geometry.line_intersection. -/
def inter_u (line1 line2 : Line) : ℝ :=
  -((line1.1.1 - line1.2.1) * (line1.1.2 - line2.1.2) -
    (line1.1.2 - line1.2.2) * (line1.1.1 - line2.1.1)) / inter_denom line1 line2

/-- geometry.line_intersection: `if abs(denom) < 1e-10: return None`;
accept only when `0 <= t <= 1 and 0 <= u <= 1`; the returned point is
`(x1 + t*(x2-x1), y1 + t*(y2-y1))`. -/
def line_intersection (line1 line2 : Line) : Option Point :=
  if |inter_denom line1 line2| < 1e-10 then none
  else if 0 ≤ inter_t line1 line2 ∧ inter_t line1 line2 ≤ 1 ∧
          0 ≤ inter_u line1 line2 ∧ inter_u line1 line2 ≤ 1 then
    some (line1.1.1 + inter_t line1 line2 * (line1.2.1 - line1.1.1),
          line1.1.2 + inter_t line1 line2 * (line1.2.2 - line1.1.2))
  else none

/-- The loop body of geometry.dedupe_points: `unique` is the accumulating
list of accepted points, `rest` the points still to process; the
existential is the `for existing in unique: if distance(point, existing)
< tolerance: is_duplicate z = True; break` scan. -/
def dedupe_aux (tolerance : ℝ) (unique : List Point) (rest : List Point) :
    List Point :=
  match rest with
  | [] => unique
  | point :: ps =>
    if ∃ existing ∈ unique, distance point existing < tolerance then
      dedupe_aux tolerance unique ps
    else
      dedupe_aux tolerance (unique ++ [point]) ps

/-- geometry.dedupe_points: `if not points: return []`, seed with
`points[0]`, then scan `points[1:]` (the Python default `tolerance=2.0`
is passed explicitly at call sites). -/
def dedupe_points (points : List Point) (tolerance : ℝ) : List Point :=
  match points with
  | [] => []
  | p :: ps => dedupe_aux tolerance [p] ps

/-- extractor.MIN_LINE_LENGTH. -/
def MIN_LINE_LENGTH : ℝ := 5.0

/-- extractor.MERGE_TOLERANCE. -/
def MERGE_TOLERANCE : ℝ := 3.0

/-- The adjacency scan in extractor.merge_collinear_segments: for
`p1 in [current_start, current_end]`, `p2 in [start2, end2]`, a merge is
possible when `distance(p1, p2) < MERGE_TOLERANCE` for some pair (the
Python flag-with-break computes exactly this disjunction). -/
def merge_possible (cur : Point × Point) (seg2 : Seg) : Prop :=
  distance cur.1 seg2.1 < MERGE_TOLERANCE ∨
  distance cur.1 seg2.2.1 < MERGE_TOLERANCE ∨
  distance cur.2 seg2.1 < MERGE_TOLERANCE ∨
  distance cur.2 seg2.2.1 < MERGE_TOLERANCE

/-- The loop body of the farthest-pair scan in
extractor.merge_collinear_segments: the state is `(max_dist, new_start,
new_end)`, updated on strict improvement (`d > max_dist`). -/
def far_step (acc : ℝ × Point × Point) (pq : Point × Point) :
    ℝ × Point × Point :=
  if acc.1 < distance pq.1 pq.2 then (distance pq.1 pq.2, pq.1, pq.2)
  else acc

/-- The farthest-pair scan in extractor.merge_collinear_segments: fold the
nested `for p1 in all_points: for p2 in all_points` loops over the state
`(max_dist, new_start, new_end)`, starting from `(0, current_start,
current_end)`. -/
def farthest_pair (pts : List Point) (init : Point × Point) : Point × Point :=
  (((pts.flatMap fun p1 => pts.map fun p2 => (p1, p2)).foldl
      far_step (0, init.1, init.2)).2.1,
   ((pts.flatMap fun p1 => pts.map fun p2 => (p1, p2)).foldl
      far_step (0, init.1, init.2)).2.2)

/-- One iteration of the inner `for j, seg2 in enumerate(segments)` loop of
extractor.merge_collinear_segments. The state `st` carries each segment
with its `merged` flag; `cur` is `(current_start, current_end)` of the
chain seeded at index `i`. Returns the new state, the new chain extent,
and whether this iteration merged (`changed`). Skips on `i == j` or an
already-merged `seg2`, then requires `lines_collinear` (with the default
0.05 angle tolerance) and endpoint adjacency; on a merge, `seg2` is
flagged and the extent becomes the farthest pair of the four endpoints. -/
def try_merge (st : List (Seg × Bool)) (i j : ℕ) (cur : Point × Point) :
    List (Seg × Bool) × (Point × Point) × Bool :=
  match st.get? j with
  | none => (st, cur, false)
  | some (seg2, flag2) =>
    if i = j ∨ flag2 then (st, cur, false)
    else if lines_collinear (cur.1, cur.2) (seg2.1, seg2.2.1) 0.05 then
      if merge_possible cur seg2 then
        (st.set j (seg2, true),
         farthest_pair [cur.1, cur.2, seg2.1, seg2.2.1] cur, true)
      else (st, cur, false)
    else (st, cur, false)

/-- One full pass of the inner `for j` loop over the index list `js`,
accumulating the `changed` flag across iterations. -/
def pass_loop (i : ℕ) (js : List ℕ) (st : List (Seg × Bool))
    (cur : Point × Point) (changed : Bool) :
    List (Seg × Bool) × (Point × Point) × Bool :=
  match js with
  | [] => (st, cur, changed)
  | j :: rest =>
    let r := try_merge st i j cur
    pass_loop i rest r.1 r.2.1 (changed || r.2.2)

/-- The `while changed` fixed-point loop of
extractor.merge_collinear_segments. Fuel bounds the number of passes;
every pass that reports `changed` flags at least one previously unflagged
segment, so at most `n` changed passes can ever occur on an `n`-segment
state and the fuel `n + 1` supplied by `outer_loop` is never exhausted. -/
def while_loop (i : ℕ) (fuel : ℕ) (st : List (Seg × Bool))
    (cur : Point × Point) : List (Seg × Bool) × (Point × Point) :=
  match fuel with
  | 0 => (st, cur)
  | fuel' + 1 =>
    let r := pass_loop i (List.range st.length) st cur false
    if r.2.2 then while_loop i fuel' r.1 r.2.1 else (r.1, r.2.1)

/-- The outer `for i, seg1 in enumerate(segments)` loop of
extractor.merge_collinear_segments: skip already-merged seeds, grow the
chain to a fixed point, flag the seed, and append
`(current_start, current_end, width1)`. -/
def outer_loop (is' : List ℕ) (st : List (Seg × Bool)) (acc : List Seg) :
    List Seg :=
  match is' with
  | [] => acc
  | i :: rest =>
    match st.get? i with
    | none => outer_loop rest st acc
    | some (seg1, flag1) =>
      if flag1 then outer_loop rest st acc
      else
        let r := while_loop i (st.length + 1) st (seg1.1, seg1.2.1)
        outer_loop rest (r.1.set i (seg1, true))
          (acc ++ [(r.2.1, r.2.2, seg1.2.2)])

/-- extractor.merge_collinear_segments: `if len(lines) <= 1: return lines`,
else run the flagged-merge loops over all indices in order. -/
def merge_collinear_segments (lines : List Seg) : List Seg :=
  if lines.length ≤ 1 then lines
  else outer_loop (List.range lines.length) (lines.map fun l => (l, false)) []

/-- The Step-1 length filter of extractor.clean_lines: keep exactly the
segments with `distance(start, end) >= MIN_LINE_LENGTH`. -/
def filter_short (lines : List Seg) : List Seg :=
  lines.filter fun l => decide (MIN_LINE_LENGTH ≤ distance l.1 l.2.1)

/-- extractor.clean_lines: `if not lines: return []`, filter short lines,
then merge collinear segments. -/
def clean_lines (lines : List Seg) : List Seg :=
  if lines = [] then []
  else merge_collinear_segments (filter_short lines)

/-- The snap-point kind strings of extractor.generate_snap_points. -/
inductive SnapKind : Type
  | endpoint : SnapKind
  | midpoint : SnapKind
  | intersection : SnapKind
deriving DecidableEq

/-- The first loop of extractor.generate_snap_points: per segment, an
endpoint candidate for each end and one midpoint candidate. -/
def snap_base (lines : List Seg) : List (SnapKind × Point) :=
  lines.flatMap fun l =>
    [(SnapKind.endpoint, l.1), (SnapKind.endpoint, l.2.1),
     (SnapKind.midpoint, midpoint l.1 l.2.1)]

/-- The intersection loops of extractor.generate_snap_points:
`for i, line1 in enumerate(lines): for j, line2 in enumerate(lines):
if i >= j: continue`, emitting a candidate whenever line_intersection
returns a point. -/
def snap_intersections (lines : List Seg) : List (SnapKind × Point) :=
  lines.enum.flatMap fun il1 =>
    lines.enum.flatMap fun jl2 =>
      if jl2.1 ≤ il1.1 then []
      else
        match line_intersection (il1.2.1, il1.2.2.1) (jl2.2.1, jl2.2.2.1) with
        | some p => [(SnapKind.intersection, p)]
        | none => []

/-- All raw snap-point candidates of extractor.generate_snap_points, in
emission order: endpoints and midpoints first, then intersections. -/
def snap_candidates (lines : List Seg) : List (SnapKind × Point) :=
  snap_base lines ++ snap_intersections lines

/-- The kind-resolution step of extractor.generate_snap_points: the list
`types = [p["type"] for p in snap_points if distance(p["coords"], coord)
< 2.0]` contains "intersection" iff some candidate of that kind lies
within 2.0 of the representative, and likewise for "endpoint"; the
priority is intersection, then endpoint, else midpoint. -/
def resolve_kind (cands : List (SnapKind × Point)) (coord : Point) :
    SnapKind :=
  if ∃ c ∈ cands, distance c.2 coord < 2.0 ∧ c.1 = SnapKind.intersection then
    SnapKind.intersection
  else if ∃ c ∈ cands, distance c.2 coord < 2.0 ∧ c.1 = SnapKind.endpoint then
    SnapKind.endpoint
  else SnapKind.midpoint

/-- extractor.generate_snap_points: gather candidates, dedupe their
coordinates with tolerance 2.0, and rebuild one snap point per unique
coordinate with the resolved kind. -/
def generate_snap_points (lines : List Seg) : List (SnapKind × Point) :=
  (dedupe_points ((snap_candidates lines).map fun c => c.2) 2.0).map
    fun coord => (resolve_kind (snap_candidates lines) coord, coord)

/-! ### Basic facts about `distance` -/

lemma distance_nonneg (p q : Point) : 0 ≤ distance p q :=
  Real.sqrt_nonneg _

lemma distance_comm (p q : Point) : distance p q = distance q p := by
  unfold distance
  ring_nf

lemma distance_self (p : Point) : distance p p = 0 := by
  unfold distance
  simp

lemma distance_eq_zero_iff (p q : Point) : distance p q = 0 ↔ p = q := by
  unfold distance
  rw [Real.sqrt_eq_zero (by positivity)]
  constructor
  · intro h
    have h1 : (q.1 - p.1) ^ 2 = 0 := by nlinarith [sq_nonneg (q.1 - p.1), sq_nonneg (q.2 - p.2)]
    have h2 : (q.2 - p.2) ^ 2 = 0 := by nlinarith [sq_nonneg (q.1 - p.1), sq_nonneg (q.2 - p.2)]
    have e1 : q.1 = p.1 := by nlinarith [pow_eq_zero_iff (n := 2) (by norm_num) |>.mp h1]
    have e2 : q.2 = p.2 := by nlinarith [pow_eq_zero_iff (n := 2) (by norm_num) |>.mp h2]
    exact Prod.ext e1.symm e2.symm
  · rintro rfl
    ring

lemma distance_lt_iff (p q : Point) {t : ℝ} (ht : 0 < t) :
    distance p q < t ↔ (q.1 - p.1) ^ 2 + (q.2 - p.2) ^ 2 < t ^ 2 :=
  Real.sqrt_lt' ht

lemma le_distance_iff (p q : Point) {t : ℝ} (ht : 0 ≤ t) :
    t ≤ distance p q ↔ t ^ 2 ≤ (q.1 - p.1) ^ 2 + (q.2 - p.2) ^ 2 :=
  Real.le_sqrt ht (by positivity)

lemma distance_eq (p q : Point) (d : ℝ) (hd : 0 ≤ d)
    (h : (q.1 - p.1) ^ 2 + (q.2 - p.2) ^ 2 = d ^ 2) : distance p q = d := by
  unfold distance
  rw [h, Real.sqrt_sq hd]

/-! ### Claim C1: the segment-segment intersection contract -/

/-- Claim C1. `line_intersection` returns a point iff the determinant has
absolute value at least the parallel epsilon `1e-10` and the solved
parameters `t` and `u` both lie in `[0, 1]` inclusive, and the point is
`start1 + t * (end1 - start1)`; the crossing segments `((0,0),(10,10))`
and `((0,10),(10,0))` intersect exactly at `(5,5)` (hence within 0.001);
parallel or near-parallel pairs (determinant below the epsilon) yield no
intersection. -/
theorem line_intersection_spec :
    (∀ (line1 line2 : Line) (p : Point),
      line_intersection line1 line2 = some p ↔
        1e-10 ≤ |inter_denom line1 line2| ∧
        0 ≤ inter_t line1 line2 ∧ inter_t line1 line2 ≤ 1 ∧
        0 ≤ inter_u line1 line2 ∧ inter_u line1 line2 ≤ 1 ∧
        p = (line1.1.1 + inter_t line1 line2 * (line1.2.1 - line1.1.1),
             line1.1.2 + inter_t line1 line2 * (line1.2.2 - line1.1.2))) ∧
    line_intersection ((0, 0), (10, 10)) ((0, 10), (10, 0)) = some (5, 5) ∧
    (∀ line1 line2 : Line, |inter_denom line1 line2| < 1e-10 →
      line_intersection line1 line2 = none) := by
  refine ⟨fun line1 line2 p => ?_, ?_, fun line1 line2 h => ?_⟩
  · unfold line_intersection
    split_ifs with h1 h2
    · constructor
      · intro h
        exact absurd h (by simp)
      · rintro ⟨hge, -⟩
        linarith
    · rw [Option.some_inj]
      constructor
      · intro heq
        exact ⟨not_lt.mp h1, h2.1, h2.2.1, h2.2.2.1, h2.2.2.2, heq.symm⟩
      · rintro ⟨-, -, -, -, -, heq⟩
        exact heq.symm
    · constructor
      · intro h
        exact absurd h (by simp)
      · rintro ⟨-, ht0, ht1, hu0, hu1, -⟩
        exact (h2 ⟨ht0, ht1, hu0, hu1⟩).elim
  · have hd : inter_denom ((0, 0), (10, 10)) ((0, 10), (10, 0)) = -200 := by
      unfold inter_denom
      norm_num
    have ht : inter_t ((0, 0), (10, 10)) ((0, 10), (10, 0)) = 1 / 2 := by
      unfold inter_t
      rw [hd]
      norm_num
    have hu : inter_u ((0, 0), (10, 10)) ((0, 10), (10, 0)) = 1 / 2 := by
      unfold inter_u
      rw [hd]
      norm_num
    unfold line_intersection
    rw [hd, if_neg (by norm_num), ht, hu, if_pos (by norm_num)]
    norm_num
  · unfold line_intersection
    rw [if_pos h]

/-- Witness for C1: a concrete parallel pair, with the determinant below
the epsilon, yields no intersection. -/
theorem line_intersection_spec_witness :
    |inter_denom ((0, 0), (1, 1)) ((0, 1), (1, 2))| < 1e-10 ∧
    line_intersection ((0, 0), (1, 1)) ((0, 1), (1, 2)) = none := by
  have h : |inter_denom ((0, 0), (1, 1)) ((0, 1), (1, 2))| < 1e-10 := by
    unfold inter_denom
    norm_num
  exact ⟨h, line_intersection_spec.2.2 _ _ h⟩

/-! ### Claim C7: the range of `line_angle` -/

/-- Claim C7 (failing input). The claim states that `line_angle` always
lies in the half-open interval `[0, π)`. For the leftward horizontal
segment `((1,0),(0,0))` the code computes `atan2(0, -1) = π`, which is
not negative, so no normalization is applied and exactly `π` is
returned — contradicting the spec and the function's own docstring,
which both promise a result strictly below `π`. -/
theorem line_angle_left_horizontal :
    line_angle ((1, 0), (0, 0)) = Real.pi ∧
    ¬ line_angle ((1, 0), (0, 0)) < Real.pi := by
  have hatan : atan2 ((0 : ℝ) - 0) ((0 : ℝ) - 1) = Real.pi := by
    unfold atan2
    rw [if_neg (by norm_num), if_pos (by norm_num)]
    norm_num [Real.arctan_zero]
  have hangle : line_angle ((1, 0), (0, 0)) = Real.pi := by
    unfold line_angle
    simp only
    rw [hatan, if_neg (not_lt.mpr Real.pi_pos.le)]
  exact ⟨hangle, by rw [hangle]; exact lt_irrefl _⟩

/-! ### Claim C9: totality of the perpendicular-distance computation -/

/-- Claim C9. The perpendicular point-to-line distance used by the
collinearity check is total: the guard `line_len == 0` holds exactly for
a degenerate reference line (start = end); on a degenerate line the
function returns the direct point-to-point distance; and the division
branch is taken only when the line length is nonzero. -/
theorem point_to_line_distance_degenerate :
    ∀ (p : Point) (l : Line),
      (distance l.1 l.2 = 0 ↔ l.1 = l.2) ∧
      (l.1 = l.2 → point_to_line_distance p l = distance p l.1) ∧
      (l.1 ≠ l.2 →
        point_to_line_distance p l = cross_num p l / distance l.1 l.2 ∧
        distance l.1 l.2 ≠ 0) := by
  intro p l
  refine ⟨distance_eq_zero_iff l.1 l.2, fun h => ?_, fun h => ?_⟩
  · unfold point_to_line_distance
    rw [if_pos ((distance_eq_zero_iff l.1 l.2).mpr h)]
  · have hne : distance l.1 l.2 ≠ 0 := fun h0 =>
      h ((distance_eq_zero_iff l.1 l.2).mp h0)
    unfold point_to_line_distance
    rw [if_neg hne]
    exact ⟨rfl, hne⟩

/-- Witness for C9: on the degenerate line `((1,1),(1,1))` the
perpendicular-distance computation falls back to the direct distance. -/
theorem point_to_line_distance_degenerate_witness :
    point_to_line_distance (0, 0) ((1, 1), (1, 1)) = distance (0, 0) (1, 1) :=
  (point_to_line_distance_degenerate (0, 0) ((1, 1), (1, 1))).2.1 rfl

/-! ### Claims C4 and C10: the point deduplicator -/

/-- Claim C4. `dedupe_points` processes candidates in input order and
discards a candidate iff its distance to some already-accepted point is
strictly below the tolerance; the empty list maps to the empty list, a
singleton is returned unchanged, and `[(0,0),(0,0),(5,5),(5,5)]` with
tolerance 2.0 reduces to exactly the 2 points `[(0,0),(5,5)]`. -/
theorem dedupe_points_spec :
    (∀ t : ℝ, dedupe_points [] t = []) ∧
    (∀ (p : Point) (t : ℝ), dedupe_points [p] t = [p]) ∧
    (∀ (t : ℝ) (unique : List Point) (point : Point) (ps : List Point),
      ((∃ q ∈ unique, distance point q < t) →
        dedupe_aux t unique (point :: ps) = dedupe_aux t unique ps) ∧
      (¬ (∃ q ∈ unique, distance point q < t) →
        dedupe_aux t unique (point :: ps) = dedupe_aux t (unique ++ [point]) ps)) ∧
    dedupe_points [(0, 0), (0, 0), (5, 5), (5, 5)] 2 = [(0, 0), (5, 5)] := by
  refine ⟨fun t => rfl, fun p t => rfl, fun t unique point ps => ?_, ?_⟩
  · constructor
    · intro h
      simp only [dedupe_aux]
      rw [if_pos h]
    · intro h
      simp only [dedupe_aux]
      rw [if_neg h]
  · have d1 : distance (0 : Point) 0 < 2 := by
      rw [distance_self]; norm_num
    have d2 : ¬ distance ((5, 5) : Point) 0 < 2 := by
      rw [distance_lt_iff _ _ (by norm_num)]
      norm_num [Prod.fst_zero, Prod.snd_zero]
    have d3 : distance ((5, 5) : Point) (5, 5) < 2 := by
      rw [distance_self]; norm_num
    simp [dedupe_points, dedupe_aux, d1, d2, d3]

/-- Witness for C4: a candidate within tolerance 2 of an accepted point
is discarded. -/
theorem dedupe_points_spec_witness :
    (∃ q ∈ ([(0, 0)] : List Point), distance (1, 0) q < 2) ∧
    dedupe_aux 2 [(0, 0)] [(1, 0)] = dedupe_aux 2 [(0, 0)] [] := by
  have h : ∃ q ∈ ([(0, 0)] : List Point), distance (1, 0) q < 2 :=
    ⟨(0, 0), by simp, by rw [distance_lt_iff _ _ (by norm_num)]; norm_num⟩
  exact ⟨h, (dedupe_points_spec.2.2.1 2 [(0, 0)] (1, 0) []).1 h⟩

lemma dedupe_aux_append_sublist (t : ℝ) (rest : List Point) :
    ∀ unique, ∃ sub, dedupe_aux t unique rest = unique ++ sub ∧
      sub.Sublist rest := by
  induction rest with
  | nil =>
    intro unique
    exact ⟨[], by simp [dedupe_aux], List.nil_sublist _⟩
  | cons point ps ih =>
    intro unique
    by_cases h : ∃ q ∈ unique, distance point q < t
    · obtain ⟨sub, heq, hsub⟩ := ih unique
      refine ⟨sub, ?_, List.Sublist.cons point hsub⟩
      simp only [dedupe_aux]
      rw [if_pos h]
      exact heq
    · obtain ⟨sub, heq, hsub⟩ := ih (unique ++ [point])
      refine ⟨point :: sub, ?_, List.Sublist.cons₂ point hsub⟩
      simp only [dedupe_aux]
      rw [if_neg h, heq, List.append_assoc]
      rfl

lemma dedupe_points_sublist (points : List Point) (t : ℝ) :
    (dedupe_points points t).Sublist points := by
  cases points with
  | nil => simp [dedupe_points]
  | cons p ps =>
    obtain ⟨sub, heq, hsub⟩ := dedupe_aux_append_sublist t ps [p]
    simp only [dedupe_points]
    rw [heq]
    exact List.Sublist.cons₂ p hsub

lemma dedupe_aux_pairwise (t : ℝ) (rest : List Point) :
    ∀ unique, unique.Pairwise (fun a b => t ≤ distance a b) →
      (dedupe_aux t unique rest).Pairwise fun a b => t ≤ distance a b := by
  induction rest with
  | nil =>
    intro unique h
    simpa [dedupe_aux] using h
  | cons point ps ih =>
    intro unique h
    simp only [dedupe_aux]
    by_cases hd : ∃ q ∈ unique, distance point q < t
    · rw [if_pos hd]
      exact ih unique h
    · rw [if_neg hd]
      refine ih _ ?_
      rw [List.pairwise_append]
      refine ⟨h, List.pairwise_singleton _ _, ?_⟩
      intro a ha b hb
      simp only [List.mem_singleton] at hb
      subst hb
      push_neg at hd
      rw [distance_comm]
      exact hd a ha

/-- Claim C10. The output of `dedupe_points` is a subsequence of the
input (every output point is an input point, in input order), a
non-empty input always keeps its first point, and any two points of the
output are at distance at least the tolerance from each other. -/
theorem dedupe_points_invariants :
    ∀ (points : List Point) (t : ℝ),
      (dedupe_points points t).Sublist points ∧
      (∀ (p : Point) (ps : List Point),
        ∃ rest', dedupe_points (p :: ps) t = p :: rest') ∧
      (dedupe_points points t).Pairwise fun a b => t ≤ distance a b := by
  intro points t
  refine ⟨dedupe_points_sublist points t, fun p ps => ?_, ?_⟩
  · obtain ⟨sub, heq, -⟩ := dedupe_aux_append_sublist t ps [p]
    exact ⟨sub, by simp only [dedupe_points]; rw [heq]; rfl⟩
  · cases points with
    | nil => simp [dedupe_points]
    | cons p ps =>
      simp only [dedupe_points]
      exact dedupe_aux_pairwise t ps [p] (List.pairwise_singleton _ _)

/-- Witness for C10: the invariants instantiated at a concrete input. -/
theorem dedupe_points_invariants_witness :
    (dedupe_points [(0, 0), (3, 0)] 2).Sublist [(0, 0), (3, 0)] ∧
    (dedupe_points [(0, 0), (3, 0)] 2).Pairwise fun a b => 2 ≤ distance a b :=
  ⟨(dedupe_points_invariants [(0, 0), (3, 0)] 2).1,
   (dedupe_points_invariants [(0, 0), (3, 0)] 2).2.2⟩

/-! ### Claim C6: the segment filter stage -/

/-- Claim C6. The filter stage of `clean_lines` returns exactly the
order-preserving subset of input segments whose Euclidean length is at
least `MIN_LINE_LENGTH = 5.0`, with no other modification; every
surviving segment has `start != end`. -/
theorem filter_stage_spec :
    ∀ lines : List Seg,
      (filter_short lines).Sublist lines ∧
      (∀ l : Seg, l ∈ filter_short lines ↔
        l ∈ lines ∧ MIN_LINE_LENGTH ≤ distance l.1 l.2.1) ∧
      (∀ l ∈ filter_short lines, l.1 ≠ l.2.1) := by
  intro lines
  refine ⟨List.filter_sublist lines, fun l => ?_, fun l hl => ?_⟩
  · simp [filter_short, List.mem_filter, decide_eq_true_eq]
  · have h : MIN_LINE_LENGTH ≤ distance l.1 l.2.1 := by
      simp only [filter_short, List.mem_filter, decide_eq_true_eq] at hl
      exact hl.2
    intro heq
    rw [heq, distance_self] at h
    norm_num [MIN_LINE_LENGTH] at h

/-- Witness for C6: a 10-unit segment survives the filter and has
distinct endpoints; a 1-unit segment is dropped. -/
theorem filter_stage_spec_witness :
    ((0, 0), (10, 0), 1) ∈
      filter_short [((0, 0), (10, 0), 1), ((0, 0), (1, 0), 1)] ∧
    ¬ ((0, 0), (1, 0), 1) ∈
      filter_short [((0, 0), (10, 0), 1), ((0, 0), (1, 0), 1)] ∧
    ((0, 0) : Point) ≠ (10, 0) := by
  have h10 : distance ((0, 0) : Point) (10, 0) = 10 :=
    distance_eq _ _ 10 (by norm_num) (by norm_num)
  have h1 : distance ((0, 0) : Point) (1, 0) = 1 :=
    distance_eq _ _ 1 (by norm_num) (by norm_num)
  have hmem : ((0, 0), (10, 0), 1) ∈
      filter_short [((0, 0), (10, 0), 1), ((0, 0), (1, 0), 1)] :=
    ((filter_stage_spec [((0, 0), (10, 0), 1), ((0, 0), (1, 0), 1)]).2.1
      ((0, 0), (10, 0), 1)).mpr
      ⟨by simp, by rw [h10]; norm_num [MIN_LINE_LENGTH]⟩
  refine ⟨hmem, fun hmem' => ?_,
    (filter_stage_spec [((0, 0), (10, 0), 1), ((0, 0), (1, 0), 1)]).2.2 _ hmem⟩
  have h := ((filter_stage_spec
    [((0, 0), (10, 0), 1), ((0, 0), (1, 0), 1)]).2.1
    ((0, 0), (1, 0), 1)).mp hmem'
  rw [h1] at h
  norm_num [MIN_LINE_LENGTH] at h

/-! ### Claim C8: exhaustive unordered pairing for intersections -/

/-- Claim C8. The intersection candidates emitted by the snap-point
generator are exactly the successful `line_intersection` results over
all unordered pairs `i < j` of the full segment list it is given: no
self-pairs, no pair examined twice, and no internal cap on the number of
segments considered. -/
theorem snap_intersections_spec :
    ∀ (lines : List Seg) (c : SnapKind × Point),
      c ∈ snap_intersections lines ↔
        c.1 = SnapKind.intersection ∧
        ∃ (i j : ℕ) (l1 l2 : Seg), i < j ∧
          lines.get? i = some l1 ∧ lines.get? j = some l2 ∧
          line_intersection (l1.1, l1.2.1) (l2.1, l2.2.1) = some c.2 := by
  intro lines c
  unfold snap_intersections
  rw [List.mem_flatMap]
  constructor
  · rintro ⟨il1, hil1, hc⟩
    rw [List.mem_flatMap] at hc
    obtain ⟨jl2, hjl2, hc⟩ := hc
    by_cases hij : jl2.1 ≤ il1.1
    · rw [if_pos hij] at hc
      simp at hc
    · rw [if_neg hij] at hc
      rcases hli : line_intersection (il1.2.1, il1.2.2.1)
          (jl2.2.1, jl2.2.2.1) with - | p
      · rw [hli] at hc
        simp at hc
      · rw [hli] at hc
        simp only [List.mem_singleton] at hc
        subst hc
        exact ⟨rfl, il1.1, jl2.1, il1.2, jl2.2, not_le.mp hij,
          List.mem_enum_iff_get?.mp hil1, List.mem_enum_iff_get?.mp hjl2, hli⟩
  · rintro ⟨hkind, i, j, l1, l2, hij, hgi, hgj, hli⟩
    refine ⟨(i, l1), List.mem_enum_iff_get?.mpr ?_, ?_⟩
    · exact hgi
    · rw [List.mem_flatMap]
      refine ⟨(j, l2), List.mem_enum_iff_get?.mpr ?_, ?_⟩
      · exact hgj
      · rw [if_neg (not_le.mpr hij)]
        rw [hli]
        simp only [List.mem_singleton]
        exact Prod.ext hkind rfl

/-! ### Claim C5: kind resolution by priority -/

lemma resolve_kind_intersection_iff (cands : List (SnapKind × Point))
    (coord : Point) :
    resolve_kind cands coord = SnapKind.intersection ↔
      ∃ c ∈ cands, distance c.2 coord < 2.0 ∧ c.1 = SnapKind.intersection := by
  unfold resolve_kind
  split_ifs with h1 h2
  · exact iff_of_true rfl h1
  · exact iff_of_false (by simp) h1
  · exact iff_of_false (by simp) h1

lemma resolve_kind_endpoint_iff (cands : List (SnapKind × Point))
    (coord : Point) :
    resolve_kind cands coord = SnapKind.endpoint ↔
      (¬ ∃ c ∈ cands, distance c.2 coord < 2.0 ∧
        c.1 = SnapKind.intersection) ∧
      ∃ c ∈ cands, distance c.2 coord < 2.0 ∧ c.1 = SnapKind.endpoint := by
  unfold resolve_kind
  split_ifs with h1 h2
  · exact iff_of_false (by simp) fun h => h.1 h1
  · exact iff_of_true rfl ⟨h1, h2⟩
  · exact iff_of_false (by simp) fun h => h2 h.2

lemma resolve_kind_midpoint_iff (cands : List (SnapKind × Point))
    (coord : Point) :
    resolve_kind cands coord = SnapKind.midpoint ↔
      (¬ ∃ c ∈ cands, distance c.2 coord < 2.0 ∧
        c.1 = SnapKind.intersection) ∧
      ¬ ∃ c ∈ cands, distance c.2 coord < 2.0 ∧ c.1 = SnapKind.endpoint := by
  unfold resolve_kind
  split_ifs with h1 h2
  · exact iff_of_false (by simp) fun h => h.1 h1
  · exact iff_of_false (by simp) fun h => h.2 h2
  · exact iff_of_true rfl ⟨h1, h2⟩

/-- Claim C5. For every snap point produced by `generate_snap_points`,
the reported kind is determined by gathering the kinds of all original
candidates within the dedupe tolerance (2.0) of the representative
coordinate and applying the fixed priority
intersection > endpoint > midpoint; in particular the kind is
`intersection` exactly when some intersection candidate lies within
tolerance of the representative, even if the representative itself was
emitted as a midpoint or endpoint. -/
theorem generate_snap_points_kind_spec :
    ∀ (lines : List Seg) (sp : SnapKind × Point),
      sp ∈ generate_snap_points lines →
        (sp.1 = SnapKind.intersection ↔
          ∃ c ∈ snap_candidates lines, distance c.2 sp.2 < 2.0 ∧
            c.1 = SnapKind.intersection) ∧
        (sp.1 = SnapKind.endpoint ↔
          (¬ ∃ c ∈ snap_candidates lines, distance c.2 sp.2 < 2.0 ∧
            c.1 = SnapKind.intersection) ∧
          ∃ c ∈ snap_candidates lines, distance c.2 sp.2 < 2.0 ∧
            c.1 = SnapKind.endpoint) ∧
        (sp.1 = SnapKind.midpoint ↔
          (¬ ∃ c ∈ snap_candidates lines, distance c.2 sp.2 < 2.0 ∧
            c.1 = SnapKind.intersection) ∧
          ¬ ∃ c ∈ snap_candidates lines, distance c.2 sp.2 < 2.0 ∧
            c.1 = SnapKind.endpoint) := by
  intro lines sp hsp
  unfold generate_snap_points at hsp
  rw [List.mem_map] at hsp
  obtain ⟨coord, -, rfl⟩ := hsp
  exact ⟨resolve_kind_intersection_iff (snap_candidates lines) coord,
    resolve_kind_endpoint_iff (snap_candidates lines) coord,
    resolve_kind_midpoint_iff (snap_candidates lines) coord⟩

/-- Witness for C5: for the single segment `((0,0),(10,0))` the snap
point at `(0,0)` is reported as an endpoint, with no intersection
candidate within tolerance and an endpoint candidate within tolerance. -/
theorem generate_snap_points_kind_spec_witness :
    (SnapKind.endpoint, ((0 : ℝ), (0 : ℝ))) ∈
      generate_snap_points [((0, 0), (10, 0), 1)] ∧
    ((SnapKind.endpoint, ((0 : ℝ), (0 : ℝ))).1 = SnapKind.endpoint ↔
      (¬ ∃ c ∈ snap_candidates [((0, 0), (10, 0), 1)],
        distance c.2 (SnapKind.endpoint, ((0 : ℝ), (0 : ℝ))).2 < 2.0 ∧
        c.1 = SnapKind.intersection) ∧
      ∃ c ∈ snap_candidates [((0, 0), (10, 0), 1)],
        distance c.2 (SnapKind.endpoint, ((0 : ℝ), (0 : ℝ))).2 < 2.0 ∧
        c.1 = SnapKind.endpoint) := by
  have hmid : midpoint (0 : Point) (10, 0) = (5, 0) := by
    unfold midpoint
    norm_num
  have hint : snap_intersections [((0, 0), (10, 0), (1 : ℝ))] = [] := rfl
  have hcands : snap_candidates [((0, 0), (10, 0), (1 : ℝ))] =
      [(SnapKind.endpoint, (0, 0)), (SnapKind.endpoint, (10, 0)),
       (SnapKind.midpoint, (5, 0))] := by
    unfold snap_candidates snap_base
    rw [hint]
    simp [hmid]
  have dd1 : ¬ distance ((10, 0) : Point) 0 < 2.0 := by
    rw [distance_lt_iff _ _ (by norm_num)]
    norm_num
  have dd2 : ¬ distance ((5, 0) : Point) 0 < 2.0 := by
    rw [distance_lt_iff _ _ (by norm_num)]
    norm_num
  have dd3 : ¬ distance ((5, 0) : Point) (10, 0) < 2.0 := by
    rw [distance_lt_iff _ _ (by norm_num)]
    norm_num
  have hdedupe : dedupe_points [((0 : ℝ), (0 : ℝ)), (10, 0), (5, 0)] 2.0 =
      [(0, 0), (10, 0), (5, 0)] := by
    simp [dedupe_points, dedupe_aux, dd1, dd2, dd3]
  have r0 : resolve_kind
      [(SnapKind.endpoint, ((0 : ℝ), (0 : ℝ))), (SnapKind.endpoint, (10, 0)),
       (SnapKind.midpoint, (5, 0))] (0, 0) = SnapKind.endpoint := by
    refine (resolve_kind_endpoint_iff _ _).mpr ⟨?_, ?_⟩
    · rintro ⟨c, hc, -, hk⟩
      simp at hc
      rcases hc with rfl | rfl | rfl
      · exact SnapKind.noConfusion hk
      · exact SnapKind.noConfusion hk
      · exact SnapKind.noConfusion hk
    · exact ⟨(SnapKind.endpoint, (0, 0)), by simp,
        by rw [distance_self]; norm_num, rfl⟩
  have hmem : (SnapKind.endpoint, ((0 : ℝ), (0 : ℝ))) ∈
      generate_snap_points [((0, 0), (10, 0), 1)] := by
    unfold generate_snap_points
    refine List.mem_map.mpr ⟨((0 : ℝ), (0 : ℝ)), ?_, ?_⟩
    · rw [hcands]
      have hcoords : ([(SnapKind.endpoint, ((0 : ℝ), (0 : ℝ))),
          (SnapKind.endpoint, (10, 0)), (SnapKind.midpoint, (5, 0))].map
          fun c => c.2) = [(0, 0), (10, 0), (5, 0)] := rfl
      rw [hcoords, hdedupe]
      simp
    · rw [hcands, r0]
  exact ⟨hmem, (generate_snap_points_kind_spec _ _ hmem).2.1⟩

/-! ### Claim C2: merging two collinear, merge-eligible segments -/

lemma foldl_far_step_spec (L : List (Point × Point)) :
    ∀ acc : ℝ × Point × Point, acc.1 ≤ distance acc.2.1 acc.2.2 →
      (L.foldl far_step acc).1 ≤
        distance (L.foldl far_step acc).2.1 (L.foldl far_step acc).2.2 ∧
      acc.1 ≤ (L.foldl far_step acc).1 ∧
      (∀ pq ∈ L, distance pq.1 pq.2 ≤ (L.foldl far_step acc).1) ∧
      ((L.foldl far_step acc).2 = acc.2 ∨ (L.foldl far_step acc).2 ∈ L) := by
  induction L with
  | nil =>
    intro acc h
    exact ⟨h, le_refl _, by simp, Or.inl rfl⟩
  | cons pq rest ih =>
    intro acc h
    rw [List.foldl_cons]
    by_cases hlt : acc.1 < distance pq.1 pq.2
    · have hstep : far_step acc pq = (distance pq.1 pq.2, pq.1, pq.2) :=
        if_pos hlt
      rw [hstep]
      obtain ⟨h1, h2, h3, h4⟩ :=
        ih (distance pq.1 pq.2, pq.1, pq.2) (le_refl _)
      refine ⟨h1, le_trans hlt.le h2, ?_, ?_⟩
      · intro pq' hpq'
        rcases List.mem_cons.mp hpq' with rfl | hmem
        · exact h2
        · exact h3 pq' hmem
      · rcases h4 with heq | hmem
        · exact Or.inr (by rw [heq]; exact List.mem_cons_self _ _)
        · exact Or.inr (List.mem_cons_of_mem _ hmem)
    · have hstep : far_step acc pq = acc := if_neg hlt
      rw [hstep]
      obtain ⟨h1, h2, h3, h4⟩ := ih acc h
      refine ⟨h1, h2, ?_, ?_⟩
      · intro pq' hpq'
        rcases List.mem_cons.mp hpq' with rfl | hmem
        · exact le_trans (not_lt.mp hlt) h2
        · exact h3 pq' hmem
      · rcases h4 with heq | hmem
        · exact Or.inl heq
        · exact Or.inr (List.mem_cons_of_mem _ hmem)

lemma farthest_pair_spec (pts : List Point) (init : Point × Point)
    (hm1 : init.1 ∈ pts) (hm2 : init.2 ∈ pts) :
    (farthest_pair pts init).1 ∈ pts ∧ (farthest_pair pts init).2 ∈ pts ∧
    ∀ a ∈ pts, ∀ b ∈ pts,
      distance a b ≤
        distance (farthest_pair pts init).1 (farthest_pair pts init).2 := by
  obtain ⟨h1, -, h3, h4⟩ :=
    foldl_far_step_spec (pts.flatMap fun p1 => pts.map fun p2 => (p1, p2))
      (0, init.1, init.2) (distance_nonneg init.1 init.2)
  have hpair_mem : ∀ a ∈ pts, ∀ b ∈ pts,
      (a, b) ∈ pts.flatMap fun p1 => pts.map fun p2 => (p1, p2) := by
    intro a ha b hb
    exact List.mem_flatMap.mpr ⟨a, ha, List.mem_map.mpr ⟨b, hb, rfl⟩⟩
  have hmem_conv : ∀ xy : Point × Point,
      (xy ∈ pts.flatMap fun p1 => pts.map fun p2 => (p1, p2)) →
      xy.1 ∈ pts ∧ xy.2 ∈ pts := by
    intro xy hxy
    obtain ⟨a, ha, hxy⟩ := List.mem_flatMap.mp hxy
    obtain ⟨b, hb, rfl⟩ := List.mem_map.mp hxy
    exact ⟨ha, hb⟩
  have hfp : farthest_pair pts init =
      (((pts.flatMap fun p1 => pts.map fun p2 => (p1, p2)).foldl
        far_step (0, init.1, init.2)).2.1,
       ((pts.flatMap fun p1 => pts.map fun p2 => (p1, p2)).foldl
        far_step (0, init.1, init.2)).2.2) := rfl
  refine ⟨?_, ?_, ?_⟩
  · rw [hfp]
    rcases h4 with heq | hmem
    · rw [congrArg Prod.fst heq]
      exact hm1
    · exact (hmem_conv _ hmem).1
  · rw [hfp]
    rcases h4 with heq | hmem
    · rw [congrArg Prod.snd heq]
      exact hm2
    · exact (hmem_conv _ hmem).2
  · intro a ha b hb
    rw [hfp]
    exact le_trans (h3 (a, b) (hpair_mem a ha b hb)) h1

/-! Definitional unfolding equations for the merge loops, used to drive
symbolic and concrete executions. -/

lemma try_merge_eq (st : List (Seg × Bool)) (i j : ℕ) (cur : Point × Point)
    (seg2 : Seg) (flag2 : Bool) (h : st.get? j = some (seg2, flag2)) :
    try_merge st i j cur =
      if i = j ∨ flag2 then (st, cur, false)
      else if lines_collinear (cur.1, cur.2) (seg2.1, seg2.2.1) 0.05 then
        if merge_possible cur seg2 then
          (st.set j (seg2, true),
           farthest_pair [cur.1, cur.2, seg2.1, seg2.2.1] cur, true)
        else (st, cur, false)
      else (st, cur, false) := by
  unfold try_merge
  rw [h]

lemma try_merge_self (st : List (Seg × Bool)) (i : ℕ) (cur : Point × Point) :
    try_merge st i i cur = (st, cur, false) := by
  cases h : st.get? i with
  | none =>
    unfold try_merge
    rw [h]
  | some sb =>
    obtain ⟨seg2, flag2⟩ := sb
    rw [try_merge_eq st i i cur seg2 flag2 h, if_pos (Or.inl rfl)]

lemma try_merge_flagged (st : List (Seg × Bool)) (i j : ℕ)
    (cur : Point × Point) (seg2 : Seg) (h : st.get? j = some (seg2, true)) :
    try_merge st i j cur = (st, cur, false) := by
  rw [try_merge_eq st i j cur seg2 true h, if_pos (Or.inr rfl)]

lemma pass_loop_nil (i : ℕ) (st : List (Seg × Bool)) (cur : Point × Point)
    (changed : Bool) : pass_loop i [] st cur changed = (st, cur, changed) :=
  rfl

lemma pass_loop_cons (i j : ℕ) (rest : List ℕ) (st : List (Seg × Bool))
    (cur : Point × Point) (changed : Bool) :
    pass_loop i (j :: rest) st cur changed =
      pass_loop i rest (try_merge st i j cur).1 (try_merge st i j cur).2.1
        (changed || (try_merge st i j cur).2.2) :=
  rfl

lemma while_loop_succ (i fuel : ℕ) (st : List (Seg × Bool))
    (cur : Point × Point) :
    while_loop i (fuel + 1) st cur =
      if (pass_loop i (List.range st.length) st cur false).2.2 then
        while_loop i fuel (pass_loop i (List.range st.length) st cur false).1
          (pass_loop i (List.range st.length) st cur false).2.1
      else ((pass_loop i (List.range st.length) st cur false).1,
            (pass_loop i (List.range st.length) st cur false).2.1) :=
  rfl

lemma while_loop_exit (i fuel : ℕ) (st : List (Seg × Bool))
    (cur : Point × Point) (st' : List (Seg × Bool)) (cur' : Point × Point)
    (h : pass_loop i (List.range st.length) st cur false = (st', cur', false)) :
    while_loop i (fuel + 1) st cur = (st', cur') := by
  rw [while_loop_succ, h]
  rfl

lemma while_loop_step (i fuel : ℕ) (st : List (Seg × Bool))
    (cur : Point × Point) (st' : List (Seg × Bool)) (cur' : Point × Point)
    (h : pass_loop i (List.range st.length) st cur false = (st', cur', true)) :
    while_loop i (fuel + 1) st cur = while_loop i fuel st' cur' := by
  rw [while_loop_succ, h]
  rfl

lemma outer_loop_nil (st : List (Seg × Bool)) (acc : List Seg) :
    outer_loop [] st acc = acc :=
  rfl

lemma outer_loop_flagged (i : ℕ) (rest : List ℕ) (st : List (Seg × Bool))
    (acc : List Seg) (seg1 : Seg) (h : st.get? i = some (seg1, true)) :
    outer_loop (i :: rest) st acc = outer_loop rest st acc := by
  conv_lhs => unfold outer_loop
  rw [h]
  rfl

lemma outer_loop_active (i : ℕ) (rest : List ℕ) (st : List (Seg × Bool))
    (acc : List Seg) (seg1 : Seg) (h : st.get? i = some (seg1, false)) :
    outer_loop (i :: rest) st acc =
      outer_loop rest
        ((while_loop i (st.length + 1) st (seg1.1, seg1.2.1)).1.set i
          (seg1, true))
        (acc ++ [((while_loop i (st.length + 1) st (seg1.1, seg1.2.1)).2.1,
                  (while_loop i (st.length + 1) st (seg1.1, seg1.2.1)).2.2,
                  seg1.2.2)]) := by
  conv_lhs => unfold outer_loop
  rw [h]
  rfl

/-- Claim C2. Merging two collinear, merge-eligible segments produces a
single segment whose endpoints are the pair with maximum pairwise
distance among the four endpoints of the two segments (computed by the
farthest-pair scan, hence both endpoints are drawn from those four and
realize the maximum), and whose width is the seed segment's width; the
absorbed segment's width is discarded. -/
theorem merge_two_collinear_spec :
    ∀ s1 s2 : Seg,
      lines_collinear (s1.1, s1.2.1) (s2.1, s2.2.1) 0.05 →
      merge_possible (s1.1, s1.2.1) s2 →
      merge_collinear_segments [s1, s2] =
        [((farthest_pair [s1.1, s1.2.1, s2.1, s2.2.1] (s1.1, s1.2.1)).1,
          (farthest_pair [s1.1, s1.2.1, s2.1, s2.2.1] (s1.1, s1.2.1)).2,
          s1.2.2)] ∧
      (farthest_pair [s1.1, s1.2.1, s2.1, s2.2.1] (s1.1, s1.2.1)).1 ∈
        [s1.1, s1.2.1, s2.1, s2.2.1] ∧
      (farthest_pair [s1.1, s1.2.1, s2.1, s2.2.1] (s1.1, s1.2.1)).2 ∈
        [s1.1, s1.2.1, s2.1, s2.2.1] ∧
      ∀ a ∈ [s1.1, s1.2.1, s2.1, s2.2.1], ∀ b ∈ [s1.1, s1.2.1, s2.1, s2.2.1],
        distance a b ≤
          distance
            (farthest_pair [s1.1, s1.2.1, s2.1, s2.2.1] (s1.1, s1.2.1)).1
            (farthest_pair [s1.1, s1.2.1, s2.1, s2.2.1] (s1.1, s1.2.1)).2 := by
  intro s1 s2 hcol hadj
  have hspec := farthest_pair_spec [s1.1, s1.2.1, s2.1, s2.2.1]
    (s1.1, s1.2.1) (by simp) (by simp)
  have htB : try_merge [(s1, false), (s2, false)] 0 1 (s1.1, s1.2.1) =
      ([(s1, false), (s2, true)],
       farthest_pair [s1.1, s1.2.1, s2.1, s2.2.1] (s1.1, s1.2.1), true) := by
    rw [try_merge_eq [(s1, false), (s2, false)] 0 1 (s1.1, s1.2.1) s2 false rfl,
      if_neg (by simp), if_pos hcol, if_pos hadj]
    rfl
  have htD : ∀ cur, try_merge [(s1, false), (s2, true)] 0 1 cur =
      ([(s1, false), (s2, true)], cur, false) := fun cur =>
    try_merge_flagged [(s1, false), (s2, true)] 0 1 cur s2 rfl
  have p1 : pass_loop 0 [0, 1] [(s1, false), (s2, false)] (s1.1, s1.2.1)
      false = ([(s1, false), (s2, true)],
        farthest_pair [s1.1, s1.2.1, s2.1, s2.2.1] (s1.1, s1.2.1), true) := by
    simp only [pass_loop_cons, pass_loop_nil, try_merge_self, htB,
      Bool.false_or]
  have p2 : pass_loop 0 [0, 1] [(s1, false), (s2, true)]
      (farthest_pair [s1.1, s1.2.1, s2.1, s2.2.1] (s1.1, s1.2.1)) false =
      ([(s1, false), (s2, true)],
       farthest_pair [s1.1, s1.2.1, s2.1, s2.2.1] (s1.1, s1.2.1), false) := by
    simp only [pass_loop_cons, pass_loop_nil, try_merge_self, htD,
      Bool.false_or, Bool.or_false]
  have w1 : while_loop 0 3 [(s1, false), (s2, false)] (s1.1, s1.2.1) =
      ([(s1, false), (s2, true)],
       farthest_pair [s1.1, s1.2.1, s2.1, s2.2.1] (s1.1, s1.2.1)) := by
    rw [show (3 : ℕ) = 2 + 1 from rfl, while_loop_succ]
    rw [show List.range ([(s1, false), (s2, false)] :
      List (Seg × Bool)).length = [0, 1] from rfl]
    rw [p1]
    dsimp only
    rw [show (2 : ℕ) = 1 + 1 from rfl, while_loop_succ]
    rw [show List.range ([(s1, false), (s2, true)] :
      List (Seg × Bool)).length = [0, 1] from rfl]
    rw [p2]
    simp
  have key : merge_collinear_segments [s1, s2] =
      [((farthest_pair [s1.1, s1.2.1, s2.1, s2.2.1] (s1.1, s1.2.1)).1,
        (farthest_pair [s1.1, s1.2.1, s2.1, s2.2.1] (s1.1, s1.2.1)).2,
        s1.2.2)] := by
    unfold merge_collinear_segments
    rw [if_neg (by simp)]
    rw [show List.range ([s1, s2] : List Seg).length = [0, 1] from rfl]
    rw [show ([s1, s2] : List Seg).map (fun l => (l, false)) =
      [(s1, false), (s2, false)] from rfl]
    rw [outer_loop_active 0 [1] [(s1, false), (s2, false)] [] s1 rfl]
    rw [show ([(s1, false), (s2, false)] : List (Seg × Bool)).length + 1 = 3
      from rfl]
    rw [w1]
    dsimp only
    rw [show ([(s1, false), (s2, true)] : List (Seg × Bool)).set 0 (s1, true)
      = [(s1, true), (s2, true)] from rfl]
    rw [outer_loop_flagged 1 [] [(s1, true), (s2, true)] _ s2 rfl,
      outer_loop_nil]
    simp
  exact ⟨key, hspec.1, hspec.2.1, hspec.2.2⟩

/-! ### Evaluation helpers for angles, perpendicular distances and folds -/

lemma arctan_nonneg {x : ℝ} (hx : 0 ≤ x) : 0 ≤ Real.arctan x := by
  have h := Real.arctan_strictMono.monotone hx
  rwa [Real.arctan_zero] at h

lemma arctan_neg_of_neg {x : ℝ} (hx : x < 0) : Real.arctan x < 0 := by
  have h := Real.arctan_strictMono hx
  rwa [Real.arctan_zero] at h

lemma arctan_lt_self {x : ℝ} (hx : 0 < x) : Real.arctan x < x := by
  have h1 : 0 < Real.arctan x := by
    have h := Real.arctan_strictMono hx
    rwa [Real.arctan_zero] at h
  have h2 := Real.arctan_lt_pi_div_two x
  have h3 := Real.lt_tan h1 h2
  rwa [Real.tan_arctan] at h3

/-- A rightward segment with non-decreasing y has angle `arctan` of its
slope (the `atan2` positive-x branch, no normalization needed). -/
lemma line_angle_right_up (x1 y1 x2 y2 : ℝ) (hx : x1 < x2) (hy : y1 ≤ y2) :
    line_angle ((x1, y1), (x2, y2)) = Real.arctan ((y2 - y1) / (x2 - x1)) := by
  have hatan : atan2 (y2 - y1) (x2 - x1) = Real.arctan ((y2 - y1) / (x2 - x1)) := by
    unfold atan2
    rw [if_pos (sub_pos.mpr hx)]
  unfold line_angle
  dsimp only
  rw [hatan, if_neg (not_lt.mpr (arctan_nonneg
    (div_nonneg (by linarith) (by linarith))))]

/-- A rightward segment with decreasing y has a negative `atan2` value,
so `line_angle` adds π. -/
lemma line_angle_right_down (x1 y1 x2 y2 : ℝ) (hx : x1 < x2) (hy : y2 < y1) :
    line_angle ((x1, y1), (x2, y2)) =
      Real.arctan ((y2 - y1) / (x2 - x1)) + Real.pi := by
  have hatan : atan2 (y2 - y1) (x2 - x1) = Real.arctan ((y2 - y1) / (x2 - x1)) := by
    unfold atan2
    rw [if_pos (sub_pos.mpr hx)]
  unfold line_angle
  dsimp only
  rw [hatan, if_pos (arctan_neg_of_neg
    (div_neg_of_neg_of_pos (by linarith) (by linarith)))]

lemma ptld_lt_iff (p : Point) (l : Line) (t : ℝ) (ht : 0 < t)
    (hS : 0 < (l.2.1 - l.1.1) ^ 2 + (l.2.2 - l.1.2) ^ 2) :
    point_to_line_distance p l < t ↔
      ((l.2.2 - l.1.2) * p.1 - (l.2.1 - l.1.1) * p.2 +
        l.2.1 * l.1.2 - l.2.2 * l.1.1) ^ 2 <
      t ^ 2 * ((l.2.1 - l.1.1) ^ 2 + (l.2.2 - l.1.2) ^ 2) := by
  have hsqrt_pos : 0 < distance l.1 l.2 := Real.sqrt_pos.mpr hS
  have hmul : t * distance l.1 l.2 =
      Real.sqrt (t ^ 2 * ((l.2.1 - l.1.1) ^ 2 + (l.2.2 - l.1.2) ^ 2)) := by
    rw [Real.sqrt_mul (by positivity), Real.sqrt_sq ht.le]
    rfl
  unfold point_to_line_distance cross_num
  rw [if_neg hsqrt_pos.ne', div_lt_iff hsqrt_pos, hmul,
    Real.lt_sqrt (abs_nonneg _), sq_abs]

lemma distance_axis (a b c : ℝ) : distance (a, c) (b, c) = |b - a| := by
  unfold distance
  dsimp only
  rw [show (b - a) ^ 2 + (c - c) ^ 2 = (b - a) ^ 2 by ring,
    Real.sqrt_sq_eq_abs]

lemma foldl_far_step_keep (L : List (Point × Point)) :
    ∀ acc : ℝ × Point × Point,
      (∀ pq ∈ L, ¬ acc.1 < distance pq.1 pq.2) →
      L.foldl far_step acc = acc := by
  induction L with
  | nil => intro acc _; rfl
  | cons pq rest ih =>
    intro acc h
    rw [List.foldl_cons,
      show far_step acc pq = acc from if_neg (h pq (List.mem_cons_self _ _))]
    exact ih acc fun pq' h' => h pq' (List.mem_cons_of_mem _ h')

/-- Witness for C2: merging the collinear abutting segments
`((0,0),(10,0))` (width 1) and `((12,0),(20,0))` (width 2) yields the
single segment `((0,0),(20,0))` with the seed's width 1. -/
theorem merge_two_collinear_spec_witness :
    merge_collinear_segments [((0, 0), (10, 0), 1), ((12, 0), (20, 0), 2)] =
      [((0, 0), (20, 0), 1)] := by
  have hang : angle_diff_wrapped (((0 : ℝ), (0 : ℝ)), (10, 0))
      (((12 : ℝ), (0 : ℝ)), (20, 0)) = 0 := by
    have h1 : line_angle (((0 : ℝ), (0 : ℝ)), (10, 0)) = 0 := by
      rw [line_angle_right_up 0 0 10 0 (by norm_num) (by norm_num)]
      norm_num [Real.arctan_zero]
    have h2 : line_angle (((12 : ℝ), (0 : ℝ)), (20, 0)) = 0 := by
      rw [line_angle_right_up 12 0 20 0 (by norm_num) (by norm_num)]
      norm_num [Real.arctan_zero]
    unfold angle_diff_wrapped
    rw [h1, h2, show |(0 : ℝ) - 0| = 0 by norm_num,
      if_neg (not_lt.mpr (by positivity))]
  have hcolW : lines_collinear (((0 : ℝ), (0 : ℝ)), (10, 0))
      (((12 : ℝ), (0 : ℝ)), (20, 0)) 0.05 := by
    unfold lines_collinear
    rw [hang, if_neg (by norm_num)]
    constructor
    · rw [ptld_lt_iff (12, 0) (((0 : ℝ), (0 : ℝ)), (10, 0)) 3 (by norm_num)
        (by norm_num)]
      norm_num
    · rw [ptld_lt_iff (20, 0) (((0 : ℝ), (0 : ℝ)), (10, 0)) 3 (by norm_num)
        (by norm_num)]
      norm_num
  have hadjW : merge_possible (((0 : ℝ), (0 : ℝ)), (10, 0))
      ((12, 0), (20, 0), 2) := by
    refine Or.inr (Or.inr (Or.inl ?_))
    show distance ((10 : ℝ), (0 : ℝ)) (12, 0) < MERGE_TOLERANCE
    unfold MERGE_TOLERANCE
    rw [distance_lt_iff _ _ (by norm_num)]
    norm_num
  have h := (merge_two_collinear_spec ((0, 0), (10, 0), 1)
    ((12, 0), (20, 0), 2) hcolW hadjW).1
  rw [h]
  have hd1 : distance ((0 : ℝ), (0 : ℝ)) (10, 0) = 10 := by
    rw [distance_axis]; norm_num
  have hd2 : distance ((0 : ℝ), (0 : ℝ)) (12, 0) = 12 := by
    rw [distance_axis]; norm_num
  have hd3 : distance ((0 : ℝ), (0 : ℝ)) (20, 0) = 20 := by
    rw [distance_axis]; norm_num
  have e1 : far_step (0, ((0 : ℝ), (0 : ℝ)), ((10 : ℝ), (0 : ℝ)))
      ((0, 0), (0, 0)) = (0, (0, 0), (10, 0)) := by
    unfold far_step
    dsimp only
    rw [distance_self, if_neg (lt_irrefl 0)]
  have e2 : far_step (0, ((0 : ℝ), (0 : ℝ)), ((10 : ℝ), (0 : ℝ)))
      ((0, 0), (10, 0)) = (10, (0, 0), (10, 0)) := by
    unfold far_step
    dsimp only
    rw [hd1, if_pos (by norm_num)]
  have e3 : far_step ((10 : ℝ), ((0 : ℝ), (0 : ℝ)), ((10 : ℝ), (0 : ℝ)))
      ((0, 0), (12, 0)) = (12, (0, 0), (12, 0)) := by
    unfold far_step
    dsimp only
    rw [hd2, if_pos (by norm_num)]
  have e4 : far_step ((12 : ℝ), ((0 : ℝ), (0 : ℝ)), ((12 : ℝ), (0 : ℝ)))
      ((0, 0), (20, 0)) = (20, (0, 0), (20, 0)) := by
    unfold far_step
    dsimp only
    rw [hd3, if_pos (by norm_num)]
  have hkeep : ([((10 : ℝ), (0 : ℝ)), (12, 0), (20, 0)].flatMap
      (fun p1 => [((0 : ℝ), (0 : ℝ)), (10, 0), (12, 0), (20, 0)].map
        fun p2 => (p1, p2))).foldl far_step (20, ((0 : ℝ), (0 : ℝ)),
        ((20 : ℝ), (0 : ℝ))) = (20, (0, 0), (20, 0)) := by
    apply foldl_far_step_keep
    intro pq hpq
    simp only [List.flatMap_cons, List.flatMap_nil, List.map_cons,
      List.map_nil, List.append_nil, List.cons_append, List.nil_append,
      List.mem_cons, List.not_mem_nil, or_false] at hpq
    rcases hpq with rfl | rfl | rfl | rfl | rfl | rfl | rfl | rfl | rfl |
      rfl | rfl | rfl
    all_goals dsimp only
    all_goals rw [distance_axis]
    all_goals norm_num
  have hfp : farthest_pair [((0 : ℝ), (0 : ℝ)), (10, 0), (12, 0), (20, 0)]
      ((0, 0), (10, 0)) = ((0, 0), (20, 0)) := by
    unfold farthest_pair
    dsimp only
    rw [show ([((0 : ℝ), (0 : ℝ)), (10, 0), (12, 0), (20, 0)].flatMap
      fun p1 => [((0 : ℝ), (0 : ℝ)), (10, 0), (12, 0), (20, 0)].map
        fun p2 => (p1, p2)) =
      [(((0 : ℝ), (0 : ℝ)), ((0 : ℝ), (0 : ℝ))), ((0, 0), (10, 0)),
       ((0, 0), (12, 0)), ((0, 0), (20, 0))] ++
      ([((10 : ℝ), (0 : ℝ)), (12, 0), (20, 0)].flatMap
        fun p1 => [((0 : ℝ), (0 : ℝ)), (10, 0), (12, 0), (20, 0)].map
          fun p2 => (p1, p2)) from rfl]
    rw [List.foldl_append, List.foldl_cons, e1, List.foldl_cons, e2,
      List.foldl_cons, e3, List.foldl_cons, e4, List.foldl_nil, hkeep]
  dsimp only
  rw [hfp]

/-! ### Claim C3: re-running clean_lines on its own output -/

lemma outer_loop_none (i : ℕ) (rest : List ℕ) (st : List (Seg × Bool))
    (acc : List Seg) (h : st.get? i = none) :
    outer_loop (i :: rest) st acc = outer_loop rest st acc := by
  conv_lhs => unfold outer_loop
  rw [h]

lemma outer_loop_length (is' : List ℕ) :
    ∀ (st : List (Seg × Bool)) (acc : List Seg),
      (outer_loop is' st acc).length ≤ acc.length + is'.length := by
  induction is' with
  | nil =>
    intro st acc
    simp [outer_loop_nil]
  | cons i rest ih =>
    intro st acc
    cases h : st.get? i with
    | none =>
      rw [outer_loop_none i rest st acc h]
      have := ih st acc
      simp only [List.length_cons]
      omega
    | some sb =>
      obtain ⟨seg1, flag1⟩ := sb
      cases flag1 with
      | true =>
        rw [outer_loop_flagged i rest st acc seg1 h]
        have := ih st acc
        simp only [List.length_cons]
        omega
      | false =>
        rw [outer_loop_active i rest st acc seg1 h]
        have := ih ((while_loop i (st.length + 1) st
          (seg1.1, seg1.2.1)).1.set i (seg1, true))
          (acc ++ [((while_loop i (st.length + 1) st (seg1.1, seg1.2.1)).2.1,
            (while_loop i (st.length + 1) st (seg1.1, seg1.2.1)).2.2,
            seg1.2.2)])
        simp only [List.length_append, List.length_cons,
          List.length_nil] at this ⊢
        omega

lemma merge_collinear_segments_length (lines : List Seg) :
    (merge_collinear_segments lines).length ≤ lines.length := by
  unfold merge_collinear_segments
  split_ifs with h
  · exact le_refl _
  · have := outer_loop_length (List.range lines.length)
      (lines.map fun l => (l, false)) []
    simpa [List.length_range] using this

lemma clean_lines_length_le (lines : List Seg) :
    (clean_lines lines).length ≤ lines.length := by
  unfold clean_lines
  split_ifs with h
  · simp [h]
  · refine le_trans (merge_collinear_segments_length _) ?_
    exact (List.filter_sublist lines).length_le

/-- Claim C3 (amended). Running clean_lines a second time on its own
output never increases the segment count, but the count is not in
general preserved: a second pass can strictly merge further (see the
counterexample), so the cleaned output is only a sub-fixed-point with
respect to segment count, not a fixed point. -/
theorem clean_lines_second_pass_le :
    ∀ lines : List Seg,
      (clean_lines (clean_lines lines)).length ≤ (clean_lines lines).length :=
  fun lines => clean_lines_length_le (clean_lines lines)

/-- First clean_lines pass of the idempotence counterexample. Segment A
`((0,0),(10,0))` is horizontal; B `((12,1),(162,4))` climbs at slope
0.02 and its far endpoint is 4 units above A's line, so B is not
collinear with A; C `((163,4),(213,5/2))` descends at slope -0.03 from
just past B's far end. The chain seeded at A absorbs nothing (B fails
the perpendicular check, C is not adjacent), is flagged, and the chain
seeded at B then absorbs C. -/
lemma clean_lines_ex1 :
    clean_lines [((0, 0), (10, 0), 1), ((12, 1), (162, 4), 1),
        ((163, 4), (213, 5/2), 1)] =
      [((0, 0), (10, 0), 1), ((12, 1), (213, 5/2), 1)] := by
  have fA : MIN_LINE_LENGTH ≤ distance (0 : Point) (10, 0) := by
    unfold MIN_LINE_LENGTH
    rw [le_distance_iff _ _ (by norm_num)]
    norm_num
  have fB : MIN_LINE_LENGTH ≤ distance ((12 : ℝ), (1 : ℝ)) (162, 4) := by
    unfold MIN_LINE_LENGTH
    rw [le_distance_iff _ _ (by norm_num)]
    norm_num
  have fC : MIN_LINE_LENGTH ≤ distance ((163 : ℝ), (4 : ℝ)) (213, 5/2) := by
    unfold MIN_LINE_LENGTH
    rw [le_distance_iff _ _ (by norm_num)]
    norm_num
  have hfilter : filter_short [((0, 0), (10, 0), 1), ((12, 1), (162, 4), 1),
      ((163, 4), (213, 5/2), 1)] =
      [((0, 0), (10, 0), 1), ((12, 1), (162, 4), 1),
       ((163, 4), (213, 5/2), 1)] := by
    simp [filter_short, fA, fB, fC]
  have ncolAB : ¬ lines_collinear (((0 : ℝ), (0 : ℝ)), (10, 0))
      (((12 : ℝ), (1 : ℝ)), (162, 4)) 0.05 := by
    unfold lines_collinear
    split_ifs with h
    · exact not_false
    · rintro ⟨-, h2⟩
      rw [ptld_lt_iff (162, 4) (((0 : ℝ), (0 : ℝ)), (10, 0)) 3 (by norm_num)
        (by norm_num)] at h2
      norm_num at h2
  have nadjAC : ¬ merge_possible (((0 : ℝ), (0 : ℝ)), (10, 0))
      ((163, 4), (213, 5/2), 1) := by
    unfold merge_possible MERGE_TOLERANCE
    rintro (h | h | h | h) <;>
      (rw [distance_lt_iff _ _ (by norm_num)] at h; norm_num at h)
  have hangle1 : line_angle (((12 : ℝ), (1 : ℝ)), (162, 4)) =
      Real.arctan (1/50) := by
    rw [line_angle_right_up 12 1 162 4 (by norm_num) (by norm_num)]
    norm_num
  have hangle2 : line_angle (((163 : ℝ), (4 : ℝ)), (213, 5/2)) =
      Real.pi - Real.arctan (3/100) := by
    rw [line_angle_right_down 163 4 213 (5/2) (by norm_num) (by norm_num)]
    rw [show ((5 : ℝ)/2 - 4) / (213 - 163) = -(3/100) by norm_num,
      Real.arctan_neg]
    ring
  have ha1 := arctan_lt_self (show (0 : ℝ) < 1/50 by norm_num)
  have ha2 := arctan_lt_self (show (0 : ℝ) < 3/100 by norm_num)
  have ha1p : (0 : ℝ) ≤ Real.arctan (1/50) := arctan_nonneg (by norm_num)
  have ha2p : (0 : ℝ) ≤ Real.arctan (3/100) := arctan_nonneg (by norm_num)
  have hpi := Real.pi_gt_three
  have hwrapBC : angle_diff_wrapped (((12 : ℝ), (1 : ℝ)), (162, 4))
      (((163 : ℝ), (4 : ℝ)), (213, 5/2)) =
      Real.arctan (3/100) + Real.arctan (1/50) := by
    unfold angle_diff_wrapped
    rw [hangle1, hangle2]
    rw [show |Real.arctan (1/50) - (Real.pi - Real.arctan (3/100))| =
      Real.pi - Real.arctan (3/100) - Real.arctan (1/50) from by
        rw [abs_of_nonpos (by linarith)]; ring]
    rw [if_pos (by linarith)]
    ring
  have colBC : lines_collinear (((12 : ℝ), (1 : ℝ)), (162, 4))
      (((163 : ℝ), (4 : ℝ)), (213, 5/2)) 0.05 := by
    unfold lines_collinear
    rw [hwrapBC, if_neg (not_lt.mpr (by norm_num; linarith))]
    constructor
    · rw [ptld_lt_iff (163, 4) (((12 : ℝ), (1 : ℝ)), (162, 4)) 3 (by norm_num)
        (by norm_num)]
      norm_num
    · rw [ptld_lt_iff (213, 5/2) (((12 : ℝ), (1 : ℝ)), (162, 4)) 3
        (by norm_num) (by norm_num)]
      norm_num
  have adjBC : merge_possible (((12 : ℝ), (1 : ℝ)), (162, 4))
      ((163, 4), (213, 5/2), 1) := by
    refine Or.inr (Or.inr (Or.inl ?_))
    show distance ((162 : ℝ), (4 : ℝ)) (163, 4) < MERGE_TOLERANCE
    unfold MERGE_TOLERANCE
    rw [distance_lt_iff _ _ (by norm_num)]
    norm_num
  have dB : distance ((12 : ℝ), (1 : ℝ)) (162, 4) = Real.sqrt 22509 := by
    unfold distance
    norm_num
  have dC1 : distance ((12 : ℝ), (1 : ℝ)) (163, 4) = Real.sqrt 22810 := by
    unfold distance
    norm_num
  have dC2 : distance ((12 : ℝ), (1 : ℝ)) (213, 5/2) =
      Real.sqrt (161613/4) := by
    unfold distance
    norm_num
  have f1 : far_step (0, ((12 : ℝ), (1 : ℝ)), ((162 : ℝ), (4 : ℝ)))
      ((12, 1), (12, 1)) = (0, (12, 1), (162, 4)) := by
    unfold far_step
    dsimp only
    rw [distance_self, if_neg (lt_irrefl 0)]
  have f2 : far_step (0, ((12 : ℝ), (1 : ℝ)), ((162 : ℝ), (4 : ℝ)))
      ((12, 1), (162, 4)) = (Real.sqrt 22509, (12, 1), (162, 4)) := by
    unfold far_step
    dsimp only
    rw [dB, if_pos (Real.sqrt_pos.mpr (by norm_num))]
  have f3 : far_step (Real.sqrt 22509, ((12 : ℝ), (1 : ℝ)),
      ((162 : ℝ), (4 : ℝ))) ((12, 1), (163, 4)) =
      (Real.sqrt 22810, (12, 1), (163, 4)) := by
    unfold far_step
    dsimp only
    rw [dC1, if_pos (Real.sqrt_lt_sqrt (by norm_num) (by norm_num))]
  have f4 : far_step (Real.sqrt 22810, ((12 : ℝ), (1 : ℝ)),
      ((163 : ℝ), (4 : ℝ))) ((12, 1), (213, 5/2)) =
      (Real.sqrt (161613/4), (12, 1), (213, 5/2)) := by
    unfold far_step
    dsimp only
    rw [dC2, if_pos (Real.sqrt_lt_sqrt (by norm_num) (by norm_num))]
  have hkeepB : ([((162 : ℝ), (4 : ℝ)), (163, 4), (213, 5/2)].flatMap
      (fun p1 => [((12 : ℝ), (1 : ℝ)), (162, 4), (163, 4), (213, 5/2)].map
        fun p2 => (p1, p2))).foldl far_step
      (Real.sqrt (161613/4), ((12 : ℝ), (1 : ℝ)), ((213 : ℝ), (5/2 : ℝ))) =
      (Real.sqrt (161613/4), (12, 1), (213, 5/2)) := by
    apply foldl_far_step_keep
    intro pq hpq
    simp only [List.flatMap_cons, List.flatMap_nil, List.map_cons,
      List.map_nil, List.append_nil, List.cons_append, List.nil_append,
      List.mem_cons, List.not_mem_nil, or_false] at hpq
    rcases hpq with rfl | rfl | rfl | rfl | rfl | rfl | rfl | rfl | rfl |
      rfl | rfl | rfl
    all_goals dsimp only
    all_goals unfold distance
    all_goals dsimp only
    all_goals exact not_lt.mpr (Real.sqrt_le_sqrt (by norm_num))
  have hfpB : farthest_pair
      [((12 : ℝ), (1 : ℝ)), (162, 4), (163, 4), (213, 5/2)]
      ((12, 1), (162, 4)) = ((12, 1), (213, 5/2)) := by
    unfold farthest_pair
    dsimp only
    rw [show ([((12 : ℝ), (1 : ℝ)), (162, 4), (163, 4), (213, 5/2)].flatMap
      fun p1 => [((12 : ℝ), (1 : ℝ)), (162, 4), (163, 4), (213, 5/2)].map
        fun p2 => (p1, p2)) =
      [(((12 : ℝ), (1 : ℝ)), ((12 : ℝ), (1 : ℝ))), ((12, 1), (162, 4)),
       ((12, 1), (163, 4)), ((12, 1), (213, 5/2))] ++
      ([((162 : ℝ), (4 : ℝ)), (163, 4), (213, 5/2)].flatMap
        fun p1 => [((12 : ℝ), (1 : ℝ)), (162, 4), (163, 4), (213, 5/2)].map
          fun p2 => (p1, p2)) from rfl]
    rw [List.foldl_append, List.foldl_cons, f1, List.foldl_cons, f2,
      List.foldl_cons, f3, List.foldl_cons, f4, List.foldl_nil, hkeepB]
  have tAB : try_merge
      [((((0, 0), (10, 0), 1) : Seg), false), (((12, 1), (162, 4), 1), false),
       (((163, 4), (213, 5/2), 1), false)] 0 1 ((0, 0), (10, 0)) =
      ([((((0, 0), (10, 0), 1) : Seg), false), (((12, 1), (162, 4), 1), false),
        (((163, 4), (213, 5/2), 1), false)], ((0, 0), (10, 0)), false) := by
    rw [try_merge_eq [((((0, 0), (10, 0), 1) : Seg), false), (((12, 1), (162, 4), 1), false),
       (((163, 4), (213, 5/2), 1), false)] 0 1 ((0, 0), (10, 0))
        ((12, 1), (162, 4), 1) false rfl,
      if_neg (by simp)]
    dsimp only
    rw [if_neg ncolAB]
  have tAC : try_merge
      [((((0, 0), (10, 0), 1) : Seg), false), (((12, 1), (162, 4), 1), false),
       (((163, 4), (213, 5/2), 1), false)] 0 2 ((0, 0), (10, 0)) =
      ([((((0, 0), (10, 0), 1) : Seg), false), (((12, 1), (162, 4), 1), false),
        (((163, 4), (213, 5/2), 1), false)], ((0, 0), (10, 0)), false) := by
    rw [try_merge_eq [((((0, 0), (10, 0), 1) : Seg), false), (((12, 1), (162, 4), 1), false),
       (((163, 4), (213, 5/2), 1), false)] 0 2 ((0, 0), (10, 0))
        ((163, 4), (213, 5/2), 1) false rfl,
      if_neg (by simp)]
    dsimp only
    by_cases hc : lines_collinear (((0 : ℝ), (0 : ℝ)), (10, 0))
      (((163 : ℝ), (4 : ℝ)), (213, 5/2)) 0.05
    · rw [if_pos hc, if_neg nadjAC]
    · rw [if_neg hc]
  have pA : pass_loop 0 [0, 1, 2]
      [((((0, 0), (10, 0), 1) : Seg), false), (((12, 1), (162, 4), 1), false),
       (((163, 4), (213, 5/2), 1), false)] ((0, 0), (10, 0)) false =
      ([((((0, 0), (10, 0), 1) : Seg), false), (((12, 1), (162, 4), 1), false),
        (((163, 4), (213, 5/2), 1), false)], ((0, 0), (10, 0)), false) := by
    simp only [pass_loop_cons, pass_loop_nil, try_merge_self, tAB, tAC,
      Bool.or_false]
  have wA : while_loop 0 4
      [((((0, 0), (10, 0), 1) : Seg), false), (((12, 1), (162, 4), 1), false),
       (((163, 4), (213, 5/2), 1), false)] ((0, 0), (10, 0)) =
      ([((((0, 0), (10, 0), 1) : Seg), false), (((12, 1), (162, 4), 1), false),
        (((163, 4), (213, 5/2), 1), false)], ((0, 0), (10, 0))) :=
    while_loop_exit 0 3 _ _ _ _ (by
      rw [show List.range ([((((0, 0), (10, 0), 1) : Seg), false),
        (((12, 1), (162, 4), 1), false), (((163, 4), (213, 5/2), 1), false)] :
        List (Seg × Bool)).length = [0, 1, 2] from rfl]
      exact pA)
  have tBA : ∀ cur, try_merge
      [((((0, 0), (10, 0), 1) : Seg), true), (((12, 1), (162, 4), 1), false),
       (((163, 4), (213, 5/2), 1), false)] 1 0 cur =
      ([((((0, 0), (10, 0), 1) : Seg), true), (((12, 1), (162, 4), 1), false),
        (((163, 4), (213, 5/2), 1), false)], cur, false) := fun cur =>
    try_merge_flagged _ 1 0 cur ((0, 0), (10, 0), 1) rfl
  have tBC : try_merge
      [((((0, 0), (10, 0), 1) : Seg), true), (((12, 1), (162, 4), 1), false),
       (((163, 4), (213, 5/2), 1), false)] 1 2 ((12, 1), (162, 4)) =
      ([((((0, 0), (10, 0), 1) : Seg), true), (((12, 1), (162, 4), 1), false),
        (((163, 4), (213, 5/2), 1), true)], ((12, 1), (213, 5/2)), true) := by
    rw [try_merge_eq [((((0, 0), (10, 0), 1) : Seg), true), (((12, 1), (162, 4), 1), false),
       (((163, 4), (213, 5/2), 1), false)] 1 2 ((12, 1), (162, 4))
        ((163, 4), (213, 5/2), 1) false rfl,
      if_neg (by simp)]
    dsimp only
    rw [if_pos colBC, if_pos adjBC, hfpB]
    rfl
  have pB1 : pass_loop 1 [0, 1, 2]
      [((((0, 0), (10, 0), 1) : Seg), true), (((12, 1), (162, 4), 1), false),
       (((163, 4), (213, 5/2), 1), false)] ((12, 1), (162, 4)) false =
      ([((((0, 0), (10, 0), 1) : Seg), true), (((12, 1), (162, 4), 1), false),
        (((163, 4), (213, 5/2), 1), true)], ((12, 1), (213, 5/2)), true) := by
    simp only [pass_loop_cons, pass_loop_nil, try_merge_self, tBA, tBC,
      Bool.or_false, Bool.false_or]
  have tB2A : ∀ cur, try_merge
      [((((0, 0), (10, 0), 1) : Seg), true), (((12, 1), (162, 4), 1), false),
       (((163, 4), (213, 5/2), 1), true)] 1 0 cur =
      ([((((0, 0), (10, 0), 1) : Seg), true), (((12, 1), (162, 4), 1), false),
        (((163, 4), (213, 5/2), 1), true)], cur, false) := fun cur =>
    try_merge_flagged _ 1 0 cur ((0, 0), (10, 0), 1) rfl
  have tB2C : ∀ cur, try_merge
      [((((0, 0), (10, 0), 1) : Seg), true), (((12, 1), (162, 4), 1), false),
       (((163, 4), (213, 5/2), 1), true)] 1 2 cur =
      ([((((0, 0), (10, 0), 1) : Seg), true), (((12, 1), (162, 4), 1), false),
        (((163, 4), (213, 5/2), 1), true)], cur, false) := fun cur =>
    try_merge_flagged _ 1 2 cur ((163, 4), (213, 5/2), 1) rfl
  have pB2 : pass_loop 1 [0, 1, 2]
      [((((0, 0), (10, 0), 1) : Seg), true), (((12, 1), (162, 4), 1), false),
       (((163, 4), (213, 5/2), 1), true)] ((12, 1), (213, 5/2)) false =
      ([((((0, 0), (10, 0), 1) : Seg), true), (((12, 1), (162, 4), 1), false),
        (((163, 4), (213, 5/2), 1), true)], ((12, 1), (213, 5/2)), false) := by
    simp only [pass_loop_cons, pass_loop_nil, try_merge_self, tB2A, tB2C,
      Bool.or_false]
  have wB : while_loop 1 4
      [((((0, 0), (10, 0), 1) : Seg), true), (((12, 1), (162, 4), 1), false),
       (((163, 4), (213, 5/2), 1), false)] ((12, 1), (162, 4)) =
      ([((((0, 0), (10, 0), 1) : Seg), true), (((12, 1), (162, 4), 1), false),
        (((163, 4), (213, 5/2), 1), true)], ((12, 1), (213, 5/2))) := by
    have step1 : while_loop 1 4
        [((((0, 0), (10, 0), 1) : Seg), true), (((12, 1), (162, 4), 1), false),
         (((163, 4), (213, 5/2), 1), false)] ((12, 1), (162, 4)) =
        while_loop 1 3
        [((((0, 0), (10, 0), 1) : Seg), true), (((12, 1), (162, 4), 1), false),
         (((163, 4), (213, 5/2), 1), true)] ((12, 1), (213, 5/2)) :=
      while_loop_step 1 3 _ _ _ _ (by
        rw [show List.range ([((((0, 0), (10, 0), 1) : Seg), true),
          (((12, 1), (162, 4), 1), false), (((163, 4), (213, 5/2), 1), false)] :
          List (Seg × Bool)).length = [0, 1, 2] from rfl]
        exact pB1)
    have step2 : while_loop 1 3
        [((((0, 0), (10, 0), 1) : Seg), true), (((12, 1), (162, 4), 1), false),
         (((163, 4), (213, 5/2), 1), true)] ((12, 1), (213, 5/2)) =
        ([((((0, 0), (10, 0), 1) : Seg), true), (((12, 1), (162, 4), 1), false),
          (((163, 4), (213, 5/2), 1), true)], ((12, 1), (213, 5/2))) :=
      while_loop_exit 1 2 _ _ _ _ (by
        rw [show List.range ([((((0, 0), (10, 0), 1) : Seg), true),
          (((12, 1), (162, 4), 1), false), (((163, 4), (213, 5/2), 1), true)] :
          List (Seg × Bool)).length = [0, 1, 2] from rfl]
        exact pB2)
    rw [step1, step2]
  unfold clean_lines
  rw [if_neg (by simp), hfilter]
  unfold merge_collinear_segments
  rw [if_neg (by simp)]
  rw [show List.range ([((0, 0), (10, 0), 1), ((12, 1), (162, 4), 1),
      ((163, 4), (213, 5/2), 1)] : List Seg).length = [0, 1, 2] from rfl,
    show ([((0, 0), (10, 0), 1), ((12, 1), (162, 4), 1),
      ((163, 4), (213, 5/2), 1)] : List Seg).map (fun l => (l, false)) =
      [((((0, 0), (10, 0), 1) : Seg), false), (((12, 1), (162, 4), 1), false),
       (((163, 4), (213, 5/2), 1), false)] from rfl]
  rw [outer_loop_active 0 [1, 2]
      [((((0, 0), (10, 0), 1) : Seg), false), (((12, 1), (162, 4), 1), false),
       (((163, 4), (213, 5/2), 1), false)] [] ((0, 0), (10, 0), 1) rfl,
    show ([((((0, 0), (10, 0), 1) : Seg), false),
      (((12, 1), (162, 4), 1), false), (((163, 4), (213, 5/2), 1), false)] :
      List (Seg × Bool)).length + 1 = 4 from rfl, wA]
  dsimp only
  rw [show ([((((0, 0), (10, 0), 1) : Seg), false),
      (((12, 1), (162, 4), 1), false), (((163, 4), (213, 5/2), 1), false)] :
      List (Seg × Bool)).set 0 (((0, 0), (10, 0), 1), true) =
      [((((0, 0), (10, 0), 1) : Seg), true), (((12, 1), (162, 4), 1), false),
       (((163, 4), (213, 5/2), 1), false)] from rfl]
  rw [outer_loop_active 1 [2]
      [((((0, 0), (10, 0), 1) : Seg), true), (((12, 1), (162, 4), 1), false),
       (((163, 4), (213, 5/2), 1), false)] _ ((12, 1), (162, 4), 1) rfl,
    show ([((((0, 0), (10, 0), 1) : Seg), true),
      (((12, 1), (162, 4), 1), false), (((163, 4), (213, 5/2), 1), false)] :
      List (Seg × Bool)).length + 1 = 4 from rfl, wB]
  dsimp only
  rw [show ([((((0, 0), (10, 0), 1) : Seg), true),
      (((12, 1), (162, 4), 1), false), (((163, 4), (213, 5/2), 1), true)] :
      List (Seg × Bool)).set 1 (((12, 1), (162, 4), 1), true) =
      [((((0, 0), (10, 0), 1) : Seg), true), (((12, 1), (162, 4), 1), true),
       (((163, 4), (213, 5/2), 1), true)] from rfl]
  rw [outer_loop_flagged 2 []
      [((((0, 0), (10, 0), 1) : Seg), true), (((12, 1), (162, 4), 1), true),
       (((163, 4), (213, 5/2), 1), true)] _ ((163, 4), (213, 5/2), 1) rfl,
    outer_loop_nil]
  simp

/-- Second clean_lines pass of the idempotence counterexample: the two
survivors of the first pass now satisfy both the angle check (the merged
B-C chain has slope 3/402, angle below the 0.05 tolerance) and the
perpendicular check against A's line (both endpoints within 3), and A's
right endpoint `(10,0)` is within the 3-unit merge tolerance of `(12,1)`,
so the second pass merges them into one segment. The first pass could
not do this because A's chain was finalized and flagged before B's chain
grew toward it. -/
lemma clean_lines_ex2 :
    clean_lines [((0, 0), (10, 0), 1), ((12, 1), (213, 5/2), 1)] =
      [((0, 0), (213, 5/2), 1)] := by
  have fO1 : MIN_LINE_LENGTH ≤ distance (0 : Point) (10, 0) := by
    unfold MIN_LINE_LENGTH
    rw [le_distance_iff _ _ (by norm_num)]
    norm_num
  have fO2 : MIN_LINE_LENGTH ≤ distance ((12 : ℝ), (1 : ℝ)) (213, 5/2) := by
    unfold MIN_LINE_LENGTH
    rw [le_distance_iff _ _ (by norm_num)]
    norm_num
  have hfilterO : filter_short [((0, 0), (10, 0), 1),
      ((12, 1), (213, 5/2), 1)] =
      [((0, 0), (10, 0), 1), ((12, 1), (213, 5/2), 1)] := by
    simp [filter_short, fO1, fO2]
  have hangleO1 : line_angle (((0 : ℝ), (0 : ℝ)), (10, 0)) = 0 := by
    rw [line_angle_right_up 0 0 10 0 (by norm_num) (by norm_num)]
    norm_num [Real.arctan_zero]
  have hangleO2 : line_angle (((12 : ℝ), (1 : ℝ)), (213, 5/2)) =
      Real.arctan (1/134) := by
    rw [line_angle_right_up 12 1 213 (5/2) (by norm_num) (by norm_num)]
    norm_num
  have haO : Real.arctan (1/134) < 1/134 :=
    arctan_lt_self (by norm_num)
  have haOp : (0 : ℝ) ≤ Real.arctan (1/134) := arctan_nonneg (by norm_num)
  have hwrapO : angle_diff_wrapped (((0 : ℝ), (0 : ℝ)), (10, 0))
      (((12 : ℝ), (1 : ℝ)), (213, 5/2)) = Real.arctan (1/134) := by
    unfold angle_diff_wrapped
    rw [hangleO1, hangleO2]
    rw [show |(0 : ℝ) - Real.arctan (1/134)| = Real.arctan (1/134) from by
      rw [abs_of_nonpos (by linarith)]; ring]
    rw [if_neg (not_lt.mpr (le_of_lt (Real.arctan_lt_pi_div_two _)))]
  have colO12 : lines_collinear (((0 : ℝ), (0 : ℝ)), (10, 0))
      (((12 : ℝ), (1 : ℝ)), (213, 5/2)) 0.05 := by
    unfold lines_collinear
    rw [hwrapO, if_neg (not_lt.mpr (le_of_lt (lt_trans haO (by norm_num))))]
    constructor
    · rw [ptld_lt_iff (12, 1) (((0 : ℝ), (0 : ℝ)), (10, 0)) 3 (by norm_num)
        (by norm_num)]
      norm_num
    · rw [ptld_lt_iff (213, 5/2) (((0 : ℝ), (0 : ℝ)), (10, 0)) 3 (by norm_num)
        (by norm_num)]
      norm_num
  have adjO12 : merge_possible (((0 : ℝ), (0 : ℝ)), (10, 0))
      ((12, 1), (213, 5/2), 1) := by
    refine Or.inr (Or.inr (Or.inl ?_))
    show distance ((10 : ℝ), (0 : ℝ)) (12, 1) < MERGE_TOLERANCE
    unfold MERGE_TOLERANCE
    rw [distance_lt_iff _ _ (by norm_num)]
    norm_num
  have dO1 : distance ((0 : ℝ), (0 : ℝ)) (10, 0) = Real.sqrt 100 := by
    unfold distance
    norm_num
  have dO2 : distance ((0 : ℝ), (0 : ℝ)) (12, 1) = Real.sqrt 145 := by
    unfold distance
    norm_num
  have dO3 : distance ((0 : ℝ), (0 : ℝ)) (213, 5/2) =
      Real.sqrt (181501/4) := by
    unfold distance
    norm_num
  have g1 : far_step (0, ((0 : ℝ), (0 : ℝ)), ((10 : ℝ), (0 : ℝ)))
      ((0, 0), (0, 0)) = (0, (0, 0), (10, 0)) := by
    unfold far_step
    dsimp only
    rw [distance_self, if_neg (lt_irrefl 0)]
  have g2 : far_step (0, ((0 : ℝ), (0 : ℝ)), ((10 : ℝ), (0 : ℝ)))
      ((0, 0), (10, 0)) = (Real.sqrt 100, (0, 0), (10, 0)) := by
    unfold far_step
    dsimp only
    rw [dO1, if_pos (Real.sqrt_pos.mpr (by norm_num))]
  have g3 : far_step (Real.sqrt 100, ((0 : ℝ), (0 : ℝ)), ((10 : ℝ), (0 : ℝ)))
      ((0, 0), (12, 1)) = (Real.sqrt 145, (0, 0), (12, 1)) := by
    unfold far_step
    dsimp only
    rw [dO2, if_pos (Real.sqrt_lt_sqrt (by norm_num) (by norm_num))]
  have g4 : far_step (Real.sqrt 145, ((0 : ℝ), (0 : ℝ)), ((12 : ℝ), (1 : ℝ)))
      ((0, 0), (213, 5/2)) = (Real.sqrt (181501/4), (0, 0), (213, 5/2)) := by
    unfold far_step
    dsimp only
    rw [dO3, if_pos (Real.sqrt_lt_sqrt (by norm_num) (by norm_num))]
  have hkeepO : ([((10 : ℝ), (0 : ℝ)), (12, 1), (213, 5/2)].flatMap
      (fun p1 => [((0 : ℝ), (0 : ℝ)), (10, 0), (12, 1), (213, 5/2)].map
        fun p2 => (p1, p2))).foldl far_step
      (Real.sqrt (181501/4), ((0 : ℝ), (0 : ℝ)), ((213 : ℝ), (5/2 : ℝ))) =
      (Real.sqrt (181501/4), (0, 0), (213, 5/2)) := by
    apply foldl_far_step_keep
    intro pq hpq
    simp only [List.flatMap_cons, List.flatMap_nil, List.map_cons,
      List.map_nil, List.append_nil, List.cons_append, List.nil_append,
      List.mem_cons, List.not_mem_nil, or_false] at hpq
    rcases hpq with rfl | rfl | rfl | rfl | rfl | rfl | rfl | rfl | rfl |
      rfl | rfl | rfl
    all_goals dsimp only
    all_goals unfold distance
    all_goals dsimp only
    all_goals exact not_lt.mpr (Real.sqrt_le_sqrt (by norm_num))
  have hfpO : farthest_pair
      [((0 : ℝ), (0 : ℝ)), (10, 0), (12, 1), (213, 5/2)]
      ((0, 0), (10, 0)) = ((0, 0), (213, 5/2)) := by
    unfold farthest_pair
    dsimp only
    rw [show ([((0 : ℝ), (0 : ℝ)), (10, 0), (12, 1), (213, 5/2)].flatMap
      fun p1 => [((0 : ℝ), (0 : ℝ)), (10, 0), (12, 1), (213, 5/2)].map
        fun p2 => (p1, p2)) =
      [(((0 : ℝ), (0 : ℝ)), ((0 : ℝ), (0 : ℝ))), ((0, 0), (10, 0)),
       ((0, 0), (12, 1)), ((0, 0), (213, 5/2))] ++
      ([((10 : ℝ), (0 : ℝ)), (12, 1), (213, 5/2)].flatMap
        fun p1 => [((0 : ℝ), (0 : ℝ)), (10, 0), (12, 1), (213, 5/2)].map
          fun p2 => (p1, p2)) from rfl]
    rw [List.foldl_append, List.foldl_cons, g1, List.foldl_cons, g2,
      List.foldl_cons, g3, List.foldl_cons, g4, List.foldl_nil, hkeepO]
  have tO : try_merge
      [((((0, 0), (10, 0), 1) : Seg), false),
       (((12, 1), (213, 5/2), 1), false)] 0 1 ((0, 0), (10, 0)) =
      ([((((0, 0), (10, 0), 1) : Seg), false),
        (((12, 1), (213, 5/2), 1), true)], ((0, 0), (213, 5/2)), true) := by
    rw [try_merge_eq [((((0, 0), (10, 0), 1) : Seg), false),
        (((12, 1), (213, 5/2), 1), false)] 0 1 ((0, 0), (10, 0))
        ((12, 1), (213, 5/2), 1) false rfl,
      if_neg (by simp)]
    dsimp only
    rw [if_pos colO12, if_pos adjO12, hfpO]
    rfl
  have pO1 : pass_loop 0 [0, 1]
      [((((0, 0), (10, 0), 1) : Seg), false),
       (((12, 1), (213, 5/2), 1), false)] ((0, 0), (10, 0)) false =
      ([((((0, 0), (10, 0), 1) : Seg), false),
        (((12, 1), (213, 5/2), 1), true)], ((0, 0), (213, 5/2)), true) := by
    simp only [pass_loop_cons, pass_loop_nil, try_merge_self, tO,
      Bool.or_false, Bool.false_or]
  have tO2 : ∀ cur, try_merge
      [((((0, 0), (10, 0), 1) : Seg), false),
       (((12, 1), (213, 5/2), 1), true)] 0 1 cur =
      ([((((0, 0), (10, 0), 1) : Seg), false),
        (((12, 1), (213, 5/2), 1), true)], cur, false) := fun cur =>
    try_merge_flagged _ 0 1 cur ((12, 1), (213, 5/2), 1) rfl
  have pO2 : pass_loop 0 [0, 1]
      [((((0, 0), (10, 0), 1) : Seg), false),
       (((12, 1), (213, 5/2), 1), true)] ((0, 0), (213, 5/2)) false =
      ([((((0, 0), (10, 0), 1) : Seg), false),
        (((12, 1), (213, 5/2), 1), true)], ((0, 0), (213, 5/2)), false) := by
    simp only [pass_loop_cons, pass_loop_nil, try_merge_self, tO2,
      Bool.or_false]
  have wO : while_loop 0 3
      [((((0, 0), (10, 0), 1) : Seg), false),
       (((12, 1), (213, 5/2), 1), false)] ((0, 0), (10, 0)) =
      ([((((0, 0), (10, 0), 1) : Seg), false),
        (((12, 1), (213, 5/2), 1), true)], ((0, 0), (213, 5/2))) := by
    have step1 : while_loop 0 3
        [((((0, 0), (10, 0), 1) : Seg), false),
         (((12, 1), (213, 5/2), 1), false)] ((0, 0), (10, 0)) =
        while_loop 0 2
        [((((0, 0), (10, 0), 1) : Seg), false),
         (((12, 1), (213, 5/2), 1), true)] ((0, 0), (213, 5/2)) :=
      while_loop_step 0 2 _ _ _ _ (by
        rw [show List.range ([((((0, 0), (10, 0), 1) : Seg), false),
          (((12, 1), (213, 5/2), 1), false)] :
          List (Seg × Bool)).length = [0, 1] from rfl]
        exact pO1)
    have step2 : while_loop 0 2
        [((((0, 0), (10, 0), 1) : Seg), false),
         (((12, 1), (213, 5/2), 1), true)] ((0, 0), (213, 5/2)) =
        ([((((0, 0), (10, 0), 1) : Seg), false),
          (((12, 1), (213, 5/2), 1), true)], ((0, 0), (213, 5/2))) :=
      while_loop_exit 0 1 _ _ _ _ (by
        rw [show List.range ([((((0, 0), (10, 0), 1) : Seg), false),
          (((12, 1), (213, 5/2), 1), true)] :
          List (Seg × Bool)).length = [0, 1] from rfl]
        exact pO2)
    rw [step1, step2]
  unfold clean_lines
  rw [if_neg (by simp), hfilterO]
  unfold merge_collinear_segments
  rw [if_neg (by simp)]
  rw [show List.range ([((0, 0), (10, 0), 1),
      ((12, 1), (213, 5/2), 1)] : List Seg).length = [0, 1] from rfl,
    show ([((0, 0), (10, 0), 1), ((12, 1), (213, 5/2), 1)] : List Seg).map
      (fun l => (l, false)) =
      [((((0, 0), (10, 0), 1) : Seg), false),
       (((12, 1), (213, 5/2), 1), false)] from rfl]
  rw [outer_loop_active 0 [1]
      [((((0, 0), (10, 0), 1) : Seg), false),
       (((12, 1), (213, 5/2), 1), false)] [] ((0, 0), (10, 0), 1) rfl,
    show ([((((0, 0), (10, 0), 1) : Seg), false),
      (((12, 1), (213, 5/2), 1), false)] :
      List (Seg × Bool)).length + 1 = 3 from rfl, wO]
  dsimp only
  rw [show ([((((0, 0), (10, 0), 1) : Seg), false),
      (((12, 1), (213, 5/2), 1), true)] :
      List (Seg × Bool)).set 0 (((0, 0), (10, 0), 1), true) =
      [((((0, 0), (10, 0), 1) : Seg), true),
       (((12, 1), (213, 5/2), 1), true)] from rfl]
  rw [outer_loop_flagged 1 []
      [((((0, 0), (10, 0), 1) : Seg), true),
       (((12, 1), (213, 5/2), 1), true)] _ ((12, 1), (213, 5/2), 1) rfl,
    outer_loop_nil]
  simp

/-- Claim C3 (counterexample). The three segments A `((0,0),(10,0))`,
B `((12,1),(162,4))`, C `((163,4),(213,5/2))` clean to 2 segments, but
running clean_lines again on that output cleans to 1 segment: the
cleaned output is not a fixed point of the pipeline with respect to
segment count, refuting the claimed equality. -/
theorem clean_lines_not_idempotent :
    (clean_lines [((0, 0), (10, 0), 1), ((12, 1), (162, 4), 1),
        ((163, 4), (213, 5/2), 1)]).length = 2 ∧
    (clean_lines (clean_lines [((0, 0), (10, 0), 1), ((12, 1), (162, 4), 1),
        ((163, 4), (213, 5/2), 1)])).length = 1 ∧
    ¬ (clean_lines (clean_lines [((0, 0), (10, 0), 1),
        ((12, 1), (162, 4), 1), ((163, 4), (213, 5/2), 1)])).length =
      (clean_lines [((0, 0), (10, 0), 1), ((12, 1), (162, 4), 1),
        ((163, 4), (213, 5/2), 1)]).length := by
  rw [clean_lines_ex1, clean_lines_ex2]
  norm_num

end

end Stratos
